import Mathlib

/-!
Verification of the session workflow engine of the agent-api repository.

The Go source is shallowly embedded: the relational store becomes an explicit
`DB` record, each sqlc query becomes a pure function on `DB`, and each
use-case method of `SessionUsecase` (internal/usecase/session) becomes a
function `DB → Except String α × DB` returning the result together with the
store as left behind by whatever writes the method performed (also on the
error paths, matching the Go code where earlier statements stay committed
when a later step fails).  External gateways (LLM, RAG, ASR) are passed in
as response parameters, and generated UUIDs as explicit id-generator
arguments, since the engine never inspects them.
-/

namespace AgentApi

/-- Session statuses, from `internal/entity/models.go`. -/
inductive SessionStatus where
  | statusNew
  | askUserGoal
  | selectOrCreateProject
  | askUserContext
  | chooseMode
  | interviewInfo
  | draftInfo
  | generatingQuestions
  | waitingForAnswers
  | draftCollecting
  | validating
  | generatingRequirements
  | done
  | errored
  | canceled
  | askProjectName
  | askProjectDescription
deriving DecidableEq, Repr

/-- Session modes, from `internal/entity/models.go` (`SessionType`). -/
inductive SessionType where
  | draft
  | interview
deriving DecidableEq, Repr

/-- Question statuses, from `internal/entity/models.go` (`QuestionStatus`);
the source spells the skipped status `SKIPED`. -/
inductive QuestionStatus where
  | unanswered
  | skiped
  | answered
deriving DecidableEq, Repr

/-- Row of the `sessions` table (`entity.Session`).  `current_iteration`
defaults to 1 in migration 003. -/
structure Session where
  id : String
  projectId : Option String := none
  status : SessionStatus
  stype : Option SessionType := none
  userGoal : Option String := none
  projectContext : Option String := none
  currentIteration : Int := 1
  result : Option String := none
  errorDetail : Option String := none
deriving DecidableEq, Repr

/-- Row of the `session_iterations` table (`entity.Iteration`). -/
structure Iteration where
  id : String
  sessionId : String
  iterationNumber : Int
  title : String
deriving DecidableEq, Repr

/-- Row of the `iteration_questions` table (`entity.Question`).
Timestamps are modelled as `Nat`. -/
structure Question where
  id : String
  iterationId : String
  questionNumber : Int
  status : QuestionStatus
  question : String
  explanation : String
  answer : Option String := none
  answeredAt : Option Nat := none
deriving DecidableEq, Repr

/-- Row of the `session_messages` table (`entity.SessionMessage`). -/
structure SessionMessage where
  id : String
  sessionId : String
  messageText : String
  createdAt : Nat
deriving DecidableEq, Repr

/-- Row of the `projects` table (`entity.Project`), the fields the engine reads. -/
structure Project where
  id : String
  title : String
  description : String
deriving DecidableEq, Repr

/-- The relational store reachable through the Persistence Gateway. -/
structure DB where
  sessions : List Session
  iterations : List Iteration
  questions : List Question
  messages : List SessionMessage
  projects : List Project
deriving DecidableEq, Repr

/-- `entity.QuestionDTO`. -/
structure QuestionDTO where
  id : String
  questionNumber : Int
  question : String
  explanation : String
  status : QuestionStatus
deriving DecidableEq, Repr

/-- `entity.IterationWithQuestions`. -/
structure IterationWithQuestions where
  iterationNumber : Int
  sessionId : String
  iterationId : String
  title : String
  questions : List QuestionDTO
deriving DecidableEq, Repr

/-- A question produced by the Reasoning Gateway (`entity.Question` inside
`entity.QuestionsBlock`, only the two fields the engine copies). -/
structure GenQuestion where
  text : String
  explanation : String
deriving DecidableEq, Repr

/-- `entity.QuestionsBlock`. -/
structure QuestionsBlock where
  title : String
  questions : List GenQuestion
deriving DecidableEq, Repr

/-! ### Ordering helper (`ORDER BY` of the sqlc queries) -/

/-- Insert `a` in front of the first element it is `le` to. -/
def insertLeBy (le : α → α → Bool) (a : α) : List α → List α
  | [] => [a]
  | b :: bs => if le a b then a :: b :: bs else b :: insertLeBy le a bs

/-- Stable insertion sort, used to model the `ORDER BY ... ASC` clauses. -/
def sortLeBy (le : α → α → Bool) : List α → List α
  | [] => []
  | a :: as => insertLeBy le a (sortLeBy le as)

/-! ### Repository layer (sqlc queries over the store) -/

/-- `SELECT * FROM sessions WHERE id = $1` (first matching row). -/
def findSession (db : DB) (id : String) : Option Session :=
  db.sessions.find? (fun s => s.id == id)

/-- `GetSessionByID` of `SessionPostgres`: a missing row surfaces as an error. -/
def getSessionByID (db : DB) (id : String) : Except String Session :=
  match findSession db id with
  | some s => .ok s
  | none => .error "get session: no rows"

/-- `UpdateSessionStatus` of `SessionPostgres`, running the sqlc query
`UPDATE sessions SET status = $2, updated_at = NOW() WHERE id = $1 RETURNING *`:
the update is keyed by id only, with no condition on the stored status;
since the query is `:one`, affecting zero rows (unknown id) is an error. -/
def repoUpdateSessionStatus (db : DB) (id : String) (st : SessionStatus) :
    Except String (Session × DB) :=
  match findSession db id with
  | none => .error "update session status: no rows"
  | some s =>
      .ok ({ s with status := st },
        { db with sessions :=
            db.sessions.map (fun t =>
              if t.id == id then { t with status := st } else t) })

/-- `UpdateSessionIteration`:
`UPDATE sessions SET current_iteration = current_iteration + 1 WHERE id = $1 RETURNING *`. -/
def repoUpdateSessionIteration (db : DB) (id : String) :
    Except String (Session × DB) :=
  match findSession db id with
  | none => .error "update session status: no rows"
  | some s =>
      .ok ({ s with currentIteration := s.currentIteration + 1 },
        { db with sessions :=
            db.sessions.map (fun t =>
              if t.id == id then
                { t with currentIteration := t.currentIteration + 1 } else t) })

/-- `UpdateSessionResult`:
`UPDATE sessions SET status = $2, result = $3, error = $4 WHERE id = $1 RETURNING *`. -/
def repoUpdateSessionResult (db : DB) (id : String) (st : SessionStatus)
    (res err : Option String) : Except String (Session × DB) :=
  match findSession db id with
  | none => .error "update session status: no rows"
  | some s =>
      .ok ({ s with status := st, result := res, errorDetail := err },
        { db with sessions :=
            db.sessions.map (fun t =>
              if t.id == id then
                { t with status := st, result := res, errorDetail := err } else t) })

/-- `ListIterationsBySession`:
`SELECT * FROM session_iterations WHERE session_id = $1 ORDER BY iteration_number ASC`. -/
def listIterationsBySession (db : DB) (sid : String) : List Iteration :=
  sortLeBy (fun a b => decide (a.iterationNumber ≤ b.iterationNumber))
    (db.iterations.filter (fun it => it.sessionId == sid))

/-- `ListQuestionsByIteration`:
`SELECT * FROM iteration_questions WHERE iteration_id = $1 ORDER BY question_number ASC`. -/
def listQuestionsByIteration (db : DB) (iterId : String) : List Question :=
  sortLeBy (fun a b => decide (a.questionNumber ≤ b.questionNumber))
    (db.questions.filter (fun q => q.iterationId == iterId))

/-- `ListQuestionsBySession`: questions joined to the session's iterations,
ordered by iteration number then question number. -/
def listQuestionsBySession (db : DB) (sid : String) : List Question :=
  (listIterationsBySession db sid).flatMap
    (fun it => listQuestionsByIteration db it.id)

/-- `GetUnansweredQuestions`: questions of the session with status
`UNANSWERED` or `SKIPED`, in (iteration number, question number) order. -/
def getUnansweredQuestions (db : DB) (sid : String) : List Question :=
  (listIterationsBySession db sid).flatMap
    (fun it => (listQuestionsByIteration db it.id).filter
      (fun q => q.status == .unanswered || q.status == .skiped))

/-- `GetCurrentIteration` (sqlc): the iteration whose number equals the
session's `current_iteration` pointer; `:one`, so no row is an error. -/
def repoGetCurrentIteration (db : DB) (sid : String) : Except String Iteration :=
  match findSession db sid with
  | none => .error "get next unanswered iteration: no rows"
  | some s =>
      match db.iterations.find?
          (fun it => it.sessionId == sid &&
            it.iterationNumber == s.currentIteration) with
      | some it => .ok it
      | none => .error "get next unanswered iteration: no rows"

/-- `GetNextIteration` (sqlc): iteration numbered `current_iteration + 1`. -/
def repoGetNextIteration (db : DB) (sid : String) : Except String Iteration :=
  match findSession db sid with
  | none => .error "get next unanswered iteration: no rows"
  | some s =>
      match db.iterations.find?
          (fun it => it.sessionId == sid &&
            it.iterationNumber == s.currentIteration + 1) with
      | some it => .ok it
      | none => .error "get next unanswered iteration: no rows"

/-- `CreateIteration`: the insert is subject to the
`unique_session_iteration UNIQUE (session_id, iteration_number)` constraint
of migration `002_create_project_files`/`session_iterations`. -/
def repoCreateIteration (db : DB) (it : Iteration) :
    Except String (Iteration × DB) :=
  if db.iterations.any (fun o => o.sessionId == it.sessionId &&
      o.iterationNumber == it.iterationNumber) then
    .error "create iteration: unique violation"
  else
    .ok (it, { db with iterations := db.iterations ++ [it] })

/-- `GetMaxIterationNumber`:
`SELECT COALESCE(MAX(iteration_number), 0) FROM session_iterations WHERE session_id = $1`. -/
def repoGetMaxIterationNumber (db : DB) (sid : String) : Int :=
  ((db.iterations.filter (fun it => it.sessionId == sid)).map
    (fun it => it.iterationNumber)).foldl max 0

/-- `UpdateQuestionAnswer` (sqlc, `:exec`):
`UPDATE iteration_questions SET answer = $2, status = 'ANSWERED', answered_at = NOW()
WHERE id = $1` — unconditional on the question's current status, and a
zero-row update is not an error. -/
def repoUpdateQuestionAnswer (db : DB) (qid answer : String) (now : Nat) : DB :=
  { db with questions :=
      db.questions.map (fun q =>
        if q.id == qid then
          { q with answer := some answer, status := .answered,
                   answeredAt := some now } else q) }

/-- `SkipQustion` (sqlc, `:exec`):
`UPDATE iteration_questions SET status = 'SKIPED' WHERE id = $1 AND status = 'UNANSWERED'`. -/
def repoSkipQuestion (db : DB) (qid : String) : DB :=
  { db with questions :=
      db.questions.map (fun q =>
        if q.id == qid && q.status == .unanswered then
          { q with status := .skiped } else q) }

/-- `GetQuestionByID`. -/
def findQuestion (db : DB) (qid : String) : Option Question :=
  db.questions.find? (fun q => q.id == qid)

/-- `GetSessionMessages`: messages of the session ordered by creation time. -/
def getSessionMessages (db : DB) (sid : String) : List SessionMessage :=
  sortLeBy (fun a b => decide (a.createdAt ≤ b.createdAt))
    (db.messages.filter (fun m => m.sessionId == sid))

/-- `ProjectRepository.Get`. -/
def findProject (db : DB) (pid : String) : Option Project :=
  db.projects.find? (fun p => p.id == pid)

/-- Status of a session as stored, a convenience projection for theorems. -/
def sessionStatus (db : DB) (sid : String) : Option SessionStatus :=
  (findSession db sid).map (fun s => s.status)

/-- `CreateMessage` of `SessionMessagePostgres`: appends a draft message row. -/
def repoCreateMessage (db : DB) (m : SessionMessage) : SessionMessage × DB :=
  (m, { db with messages := db.messages ++ [m] })

/-! ### Engine layer (`SessionUsecase`) -/

/-- `questionsToIterationDTO` of `internal/usecase/session/converter.go`. -/
def questionsToIterationDTO (it : Iteration) (qs : List Question) :
    IterationWithQuestions :=
  { iterationNumber := it.iterationNumber
    sessionId := it.sessionId
    iterationId := it.id
    title := it.title
    questions := qs.map (fun q =>
      { id := q.id, questionNumber := q.questionNumber,
        question := q.question, explanation := q.explanation,
        status := q.status }) }

/-- The engine helper `getCurrentIteration`: returns the iteration the user
should currently be answering.  If the last question of the iteration at the
session's pointer is still `UNANSWERED` it is returned unchanged; otherwise
the pointer is advanced to the next iteration when one exists (a write!), or
`none` is returned when iterations are exhausted. -/
def getCurrentIteration (db : DB) (sid : String) :
    Except String (Option IterationWithQuestions) × DB :=
  match repoGetCurrentIteration db sid with
  | .error e => (.error ("get current iteration: " ++ e), db)
  | .ok cur =>
      let qs := listQuestionsByIteration db cur.id
      if qs.isEmpty then (.error "list questions by iteration", db)
      else
        let lastUnanswered :=
          match qs.getLast? with
          | some q => q.status == QuestionStatus.unanswered
          | none => false
        if lastUnanswered then
          (.ok (some (questionsToIterationDTO cur qs)), db)
        else
          match repoGetNextIteration db sid with
          | .error _ => (.ok none, db)
          | .ok nxt =>
              match repoUpdateSessionIteration db sid with
              | .error e => (.error ("update iteration: " ++ e), db)
              | .ok (_, db1) =>
                  let qs2 := listQuestionsByIteration db1 nxt.id
                  if qs2.isEmpty then (.error "list questions by iteration", db1)
                  else (.ok (some (questionsToIterationDTO nxt qs2)), db1)

/-- `SubmitTextAnswer`: requires `WAITING_FOR_ANSWERS`; stores the answer;
recomputes the current iteration; moves to `VALIDATING` only when no
iteration remains and no unanswered/skipped question remains. -/
def SubmitTextAnswer (db : DB) (sid qid answer : String) (now : Nat) :
    Except String (Option IterationWithQuestions) × DB :=
  match getSessionByID db sid with
  | .error e => (.error e, db)
  | .ok s =>
      if s.status != SessionStatus.waitingForAnswers then
        (.error "wrong action on status", db)
      else
        let db1 := repoUpdateQuestionAnswer db qid answer now
        match getCurrentIteration db1 sid with
        | (.error e, db2) => (.error e, db2)
        | (.ok (some it), db2) => (.ok (some it), db2)
        | (.ok none, db2) =>
            let unanswered := getUnansweredQuestions db2 sid
            if unanswered.isEmpty then
              match repoUpdateSessionStatus db2 sid SessionStatus.validating with
              | .error e => (.error e, db2)
              | .ok (_, db3) => (.ok none, db3)
            else (.ok none, db2)

/-- `SkipAnswer`: requires `WAITING_FOR_ANSWERS`; marks the question skipped;
when the recomputed current iteration is `none` it moves straight to
`VALIDATING` (with no check for remaining unanswered/skipped questions). -/
def SkipAnswer (db : DB) (sid qid : String) :
    Except String (Option IterationWithQuestions) × DB :=
  match getSessionByID db sid with
  | .error e => (.error e, db)
  | .ok s =>
      if s.status != SessionStatus.waitingForAnswers then
        (.error "wrong action on status", db)
      else
        let db1 := repoSkipQuestion db qid
        match getCurrentIteration db1 sid with
        | (.error e, db2) => (.error e, db2)
        | (.ok (some it), db2) => (.ok (some it), db2)
        | (.ok none, db2) =>
            match repoUpdateSessionStatus db2 sid SessionStatus.validating with
            | .error e => (.error e, db2)
            | .ok (_, db3) => (.ok none, db3)

/-- `SkipSkipedQuestion`: skip used inside the skipped-question replay flow. -/
def SkipSkipedQuestion (db : DB) (sid qid : String) :
    Except String (List Question) × DB :=
  match getSessionByID db sid with
  | .error e => (.error e, db)
  | .ok s =>
      if s.status != SessionStatus.waitingForAnswers then
        (.error "wrong action on status", db)
      else
        let db1 := repoSkipQuestion db qid
        let qs := getUnansweredQuestions db1 sid
        if qs.isEmpty then
          match repoUpdateSessionStatus db1 sid SessionStatus.validating with
          | .error e => (.error e, db1)
          | .ok (_, db2) => (.ok qs, db2)
        else (.ok qs, db1)

/-- `SetWaitingForAnswersStatus` ("RestartValidationFromDone" in the source
comment): loads the session and then writes `WAITING_FOR_ANSWERS` with **no
status guard at all**. -/
def SetWaitingForAnswersStatus (db : DB) (sid : String) :
    Except String Unit × DB :=
  match getSessionByID db sid with
  | .error e => (.error e, db)
  | .ok _ =>
      match repoUpdateSessionStatus db sid SessionStatus.waitingForAnswers with
      | .error e => (.error e, db)
      | .ok (_, db1) => (.ok (), db1)

/-- `collectAllAnswers`: the answered (question, answer) pairs of the session
in iteration/question order. -/
def collectAllAnswers (db : DB) (sid : String) : List (String × String) :=
  (listQuestionsBySession db sid).filterMap (fun q =>
    if q.status == QuestionStatus.answered then
      some (q.question, q.answer.getD "")
    else none)

/-- Inner loop of `saveQuestionsToDatabase`: create the questions of one
block, numbered from 1, all `UNANSWERED`.  `mkQId` supplies the generated
UUIDs. -/
def createBlockQuestions (iterId : String) (mkQId : Nat → String) :
    DB → List GenQuestion → Nat → List Question × DB
  | db, [], _ => ([], db)
  | db, g :: gs, qIdx =>
      let q : Question :=
        { id := mkQId qIdx, iterationId := iterId,
          questionNumber := (qIdx : Int) + 1,
          status := QuestionStatus.unanswered,
          question := g.text, explanation := g.explanation }
      let db1 := { db with questions := db.questions ++ [q] }
      let rest := createBlockQuestions iterId mkQId db1 gs (qIdx + 1)
      (q :: rest.1, rest.2)

/-- Outer loop of `saveQuestionsToDatabase`: block `idx` becomes iteration
number `maxN + idx + 1`. -/
def saveBlocksAux (sid : String) (mkIterId : Nat → String)
    (mkQId : Nat → Nat → String) (maxN : Int) :
    DB → List QuestionsBlock → Nat →
    Except String (List IterationWithQuestions) × DB
  | db, [], _ => (.ok [], db)
  | db, block :: rest, idx =>
      let it : Iteration :=
        { id := mkIterId idx, sessionId := sid,
          iterationNumber := maxN + (idx : Int) + 1, title := block.title }
      match repoCreateIteration db it with
      | .error e => (.error ("create iteration: " ++ e), db)
      | .ok (savedIt, db1) =>
          let qdb := createBlockQuestions savedIt.id (mkQId idx) db1 block.questions 0
          match saveBlocksAux sid mkIterId mkQId maxN qdb.2 rest (idx + 1) with
          | (.error e, db3) => (.error e, db3)
          | (.ok dtos, db3) =>
              (.ok (questionsToIterationDTO savedIt qdb.1 :: dtos), db3)

/-- `saveQuestionsToDatabase`: iteration numbers start at
`max(existing iteration numbers for the session) + 1`. -/
def saveQuestionsToDatabase (db : DB) (sid : String)
    (blocks : List QuestionsBlock) (mkIterId : Nat → String)
    (mkQId : Nat → Nat → String) :
    Except String (List IterationWithQuestions) × DB :=
  saveBlocksAux sid mkIterId mkQId (repoGetMaxIterationNumber db sid) db blocks 0

/-- The title of the refinement round's iteration, "Дополнительные вопросы"
(Russian for "additional questions") in the source. -/
def additionalTitle : String := "Дополнительные вопросы"

/-- The idempotence check of `ValidateAnswers`/`ValidateDraftMessages`:
does an iteration titled "additional questions" already exist? -/
def hasAdditionalBlock (db : DB) (sid : String) : Bool :=
  (listIterationsBySession db sid).any (fun it => it.title == additionalTitle)

/-- `ValidateAnswers`.  `llmValidate` is the Reasoning Gateway's
`ValidateAnswers` response for the given answered Q&A. -/
def ValidateAnswers (db : DB) (sid : String)
    (llmValidate : List (String × String) → Except String (List GenQuestion))
    (mkIterId : Nat → String) (mkQId : Nat → Nat → String) :
    Except String (Option IterationWithQuestions) × DB :=
  match getSessionByID db sid with
  | .error e => (.error e, db)
  | .ok s =>
      if s.status != SessionStatus.validating &&
          s.status != SessionStatus.waitingForAnswers then
        (.error "wrong action on status", db)
      else if s.userGoal.getD "" == "" then (.error "user goal not set", db)
      else if s.projectContext.getD "" == "" then
        (.error "project context not set", db)
      else if hasAdditionalBlock db sid then
        match repoUpdateSessionStatus db sid SessionStatus.generatingRequirements with
        | .error e => (.error e, db)
        | .ok (_, db1) => (.ok none, db1)
      else
        match llmValidate (collectAllAnswers db sid) with
        | .error e => (.error ("validate answers: " ++ e), db)
        | .ok genQs =>
            if genQs.isEmpty then
              match repoUpdateSessionStatus db sid
                  SessionStatus.generatingRequirements with
              | .error e => (.error e, db)
              | .ok (_, db1) => (.ok none, db1)
            else
              match saveQuestionsToDatabase db sid
                  [{ title := additionalTitle, questions := genQs }]
                  mkIterId mkQId with
              | (.error e, db1) => (.error e, db1)
              | (.ok dtos, db1) =>
                  if dtos.isEmpty then (.error "save questions", db1)
                  else
                    match repoUpdateSessionStatus db1 sid
                        SessionStatus.waitingForAnswers with
                    | .error e => (.error e, db1)
                    | .ok (_, db2) => (.ok dtos.head?, db2)

/-- `ValidateDraftMessages`.  Note the status write to `VALIDATING` that
happens *before* fetching the draft messages and calling the Reasoning
Gateway. -/
def ValidateDraftMessages (db : DB) (sid : String)
    (llmValidateDraft : List String → List (String × String) →
      Except String (List GenQuestion))
    (mkIterId : Nat → String) (mkQId : Nat → Nat → String) :
    Except String (Option IterationWithQuestions) × DB :=
  match getSessionByID db sid with
  | .error e => (.error e, db)
  | .ok s =>
      if s.status != SessionStatus.draftCollecting &&
          s.status != SessionStatus.waitingForAnswers &&
          s.status != SessionStatus.validating then
        (.error "invalid session status for validation", db)
      else if s.userGoal.getD "" == "" then (.error "user goal not set", db)
      else if s.projectContext.getD "" == "" then
        (.error "project context not set", db)
      else if hasAdditionalBlock db sid then
        match repoUpdateSessionStatus db sid SessionStatus.generatingRequirements with
        | .error e => (.error e, db)
        | .ok (_, db1) => (.ok none, db1)
      else
        match repoUpdateSessionStatus db sid SessionStatus.validating with
        | .error e => (.error e, db)
        | .ok (_, db1) =>
            let msgs := getSessionMessages db1 sid
            if msgs.isEmpty then (.error "no draft messages to validate", db1)
            else
              let answeredQA := (listQuestionsBySession db1 sid).filterMap
                (fun q => q.answer.map (fun a => (q.question, a)))
              let projDescr : Except String (Option String) :=
                match s.projectId with
                | some pid =>
                    if pid != "" then
                      match findProject db1 pid with
                      | none => .error "get project description"
                      | some p => .ok (some p.description)
                    else .ok none
                | none => .ok none
              match projDescr with
              | .error e => (.error e, db1)
              | .ok _ =>
                  match llmValidateDraft (msgs.map (fun m => m.messageText))
                      answeredQA with
                  | .error e => (.error ("validate draft: " ++ e), db1)
                  | .ok genQs =>
                      if genQs.isEmpty then
                        match repoUpdateSessionStatus db1 sid
                            SessionStatus.generatingRequirements with
                        | .error e => (.error e, db1)
                        | .ok (_, db2) => (.ok none, db2)
                      else
                        match saveQuestionsToDatabase db1 sid
                            [{ title := additionalTitle, questions := genQs }]
                            mkIterId mkQId with
                        | (.error e, db2) => (.error e, db2)
                        | (.ok dtos, db2) =>
                            if dtos.isEmpty then (.error "save questions", db2)
                            else
                              match repoUpdateSessionStatus db2 sid
                                  SessionStatus.waitingForAnswers with
                              | .error e => (.error e, db2)
                              | .ok (_, db3) => (.ok dtos.head?, db3)

/-- `GenerateSummary`: on Reasoning Gateway success stores the result and
moves to `DONE` in a single `UpdateSessionResult` write. -/
def GenerateSummary (db : DB) (sid : String)
    (llmSummary : List (String × String) → Except String String) :
    Except String Session × DB :=
  match getSessionByID db sid with
  | .error e => (.error e, db)
  | .ok s =>
      if s.status != SessionStatus.generatingRequirements &&
          s.status != SessionStatus.waitingForAnswers then
        (.error "wrong action on status", db)
      else if s.userGoal.getD "" == "" then (.error "user goal not set", db)
      else if s.projectContext.getD "" == "" then
        (.error "project context not set", db)
      else
        match llmSummary (collectAllAnswers db sid) with
        | .error e => (.error ("generate summary: " ++ e), db)
        | .ok summary =>
            match repoUpdateSessionResult db sid SessionStatus.done
                (some summary) none with
            | .error e => (.error e, db)
            | .ok (s1, db1) => (.ok s1, db1)

/-- `GenerateDraftSummary`. -/
def GenerateDraftSummary (db : DB) (sid : String)
    (llmDraftSummary : List String → List (String × String) →
      Except String String) :
    Except String Session × DB :=
  match getSessionByID db sid with
  | .error e => (.error e, db)
  | .ok s =>
      if s.status != SessionStatus.generatingRequirements &&
          s.status != SessionStatus.waitingForAnswers then
        (.error "invalid session status", db)
      else if s.userGoal.getD "" == "" then (.error "user goal not set", db)
      else if s.projectContext.getD "" == "" then
        (.error "project context not set", db)
      else
        let msgs := getSessionMessages db sid
        if msgs.isEmpty then
          (.error "no draft messages to generate summary", db)
        else
          let projDescr : Except String (Option String) :=
            match s.projectId with
            | some pid =>
                if pid != "" then
                  match findProject db pid with
                  | none => .error "get project description"
                  | some p => .ok (some p.description)
                else .ok none
            | none => .ok none
          match projDescr with
          | .error e => (.error e, db)
          | .ok _ =>
              match llmDraftSummary (msgs.map (fun m => m.messageText))
                  (collectAllAnswers db sid) with
              | .error e => (.error ("generate draft summary: " ++ e), db)
              | .ok summary =>
                  match repoUpdateSessionResult db sid SessionStatus.done
                      (some summary) none with
                  | .error e => (.error e, db)
                  | .ok (s1, db1) => (.ok s1, db1)

/-- `CancelSession`: legal from any status except `DONE`/`CANCELED`. -/
def CancelSession (db : DB) (sid : String) : Except String Unit × DB :=
  match getSessionByID db sid with
  | .error e => (.error e, db)
  | .ok s =>
      if s.status == SessionStatus.done ||
          s.status == SessionStatus.canceled then
        (.error "wrong action on status", db)
      else
        match repoUpdateSessionStatus db sid SessionStatus.canceled with
        | .error e => (.error e, db)
        | .ok (_, db1) => (.ok (), db1)

/-! ### Remaining repository writes used by the setup operations -/

/-- `UpdateSessionUserGoal`. -/
def repoUpdateSessionUserGoal (db : DB) (id goal : String) :
    Except String (Session × DB) :=
  match findSession db id with
  | none => .error "update user goal: no rows"
  | some s =>
      .ok ({ s with userGoal := some goal },
        { db with sessions :=
            db.sessions.map (fun t =>
              if t.id == id then { t with userGoal := some goal } else t) })

/-- `UpdateSessionProjectContext`: sets the context and clears `project_id`. -/
def repoUpdateSessionProjectContext (db : DB) (id ctx : String) :
    Except String (Session × DB) :=
  match findSession db id with
  | none => .error "update project contex: no rows"
  | some s =>
      .ok ({ s with projectContext := some ctx, projectId := none },
        { db with sessions :=
            db.sessions.map (fun t =>
              if t.id == id then
                { t with projectContext := some ctx, projectId := none } else t) })

/-- `UpdateSessionRAGProjectContext`: the context parameter is bound with
`Valid: projectCtx != ""`, so an empty context is stored as NULL. -/
def repoUpdateSessionRAGProjectContext (db : DB) (id pid ctx : String) :
    Except String (Session × DB) :=
  let stored : Option String := if ctx != "" then some ctx else none
  match findSession db id with
  | none => .error "update rag project context: no rows"
  | some s =>
      .ok ({ s with projectContext := stored, projectId := some pid },
        { db with sessions :=
            db.sessions.map (fun t =>
              if t.id == id then
                { t with projectContext := stored, projectId := some pid }
              else t) })

/-- `UpdateSessionType`. -/
def repoUpdateSessionType (db : DB) (id : String) (ty : SessionType) :
    Except String (Session × DB) :=
  match findSession db id with
  | none => .error "update session type: no rows"
  | some s =>
      .ok ({ s with stype := some ty },
        { db with sessions :=
            db.sessions.map (fun t =>
              if t.id == id then { t with stype := some ty } else t) })

/-! ### Setup and mode operations of `SessionUsecase` -/

/-- `transcribeAudio`: the Transcription Gateway response is passed in;
an empty transcript is an error. -/
def transcribeAudio (tr : Except String String) : Except String String :=
  match tr with
  | .error e => .error ("transcribe audio: " ++ e)
  | .ok t => if t == "" then .error "transcription is empty" else .ok t

/-- `SessionType.Validate` of the source: both known modes are accepted. -/
def SessionType.Validate : SessionType → Except String Unit
  | .draft => .ok ()
  | .interview => .ok ()

/-- `SubmitTextUserGoal`: requires `ASK_USER_GOAL`. -/
def SubmitTextUserGoal (db : DB) (sid goal : String) :
    Except String Session × DB :=
  match getSessionByID db sid with
  | .error e => (.error e, db)
  | .ok s =>
      if s.status != SessionStatus.askUserGoal then
        (.error "wrong action on status", db)
      else
        match repoUpdateSessionUserGoal db sid goal with
        | .error e => (.error e, db)
        | .ok (_, db1) =>
            match repoUpdateSessionStatus db1 sid
                SessionStatus.selectOrCreateProject with
            | .error e => (.error e, db1)
            | .ok (s1, db2) => (.ok s1, db2)

/-- `SubmitAudioUserGoal`: guard, transcription, then the text path. -/
def SubmitAudioUserGoal (db : DB) (sid : String)
    (tr : Except String String) : Except String Session × DB :=
  match getSessionByID db sid with
  | .error e => (.error e, db)
  | .ok s =>
      if s.status != SessionStatus.askUserGoal then
        (.error "wrong action on status", db)
      else
        match transcribeAudio tr with
        | .error e => (.error ("failed to transcribe audio: " ++ e), db)
        | .ok t => SubmitTextUserGoal db sid t

/-- `SubmitRAGProjectContext`: requires `SELECT_OR_CREATE_PROJECT` and a
set user goal; the RAG response is passed in. -/
def SubmitRAGProjectContext (db : DB) (sid pid : String)
    (rag : Except String String) : Except String Session × DB :=
  match getSessionByID db sid with
  | .error e => (.error e, db)
  | .ok s =>
      if s.status != SessionStatus.selectOrCreateProject then
        (.error "wrong action on status", db)
      else if s.userGoal.getD "" == "" then
        (.error "user goal must be set before generating context", db)
      else
        match findProject db pid with
        | none => (.error "get project: not found", db)
        | some _ =>
            match rag with
            | .error e => (.error ("get RAG context: " ++ e), db)
            | .ok ctx =>
                match repoUpdateSessionRAGProjectContext db sid pid ctx with
                | .error e => (.error e, db)
                | .ok (_, db1) =>
                    match repoUpdateSessionStatus db1 sid
                        SessionStatus.chooseMode with
                    | .error e => (.error e, db1)
                    | .ok (s1, db2) => (.ok s1, db2)

/-- `SubmitTextUserProjectContext`: requires `ASK_USER_CONTEXT`. -/
def SubmitTextUserProjectContext (db : DB) (sid questions answers : String) :
    Except String Session × DB :=
  match getSessionByID db sid with
  | .error e => (.error e, db)
  | .ok s =>
      if s.status != SessionStatus.askUserContext then
        (.error "wrong action on status", db)
      else
        let formatted :=
          "На вопросы " ++ questions ++ " пользователь ответил: " ++ answers
        match repoUpdateSessionProjectContext db sid formatted with
        | .error e => (.error e, db)
        | .ok (_, db1) =>
            match repoUpdateSessionStatus db1 sid SessionStatus.chooseMode with
            | .error e => (.error e, db1)
            | .ok (s1, db2) => (.ok s1, db2)

/-- `SubmitAudioUserProjectContext`. -/
def SubmitAudioUserProjectContext (db : DB) (sid questions : String)
    (tr : Except String String) : Except String Session × DB :=
  match getSessionByID db sid with
  | .error e => (.error e, db)
  | .ok s =>
      if s.status != SessionStatus.askUserContext then
        (.error "wrong action on status", db)
      else
        match transcribeAudio tr with
        | .error e => (.error ("failed to transcribe audio: " ++ e), db)
        | .ok t => SubmitTextUserProjectContext db sid questions t

/-- `SetSessionType`: requires `CHOOSE_MODE`; sets the mode and moves to the
matching info status. -/
def SetSessionType (db : DB) (sid : String) (ty : SessionType) :
    Except String Session × DB :=
  match SessionType.Validate ty with
  | .error e => (.error e, db)
  | .ok _ =>
      match getSessionByID db sid with
      | .error e => (.error e, db)
      | .ok s =>
          if s.status != SessionStatus.chooseMode then
            (.error "wrong action on status", db)
          else
            match repoUpdateSessionType db sid ty with
            | .error e => (.error e, db)
            | .ok (_, db1) =>
                let st := match ty with
                  | .interview => SessionStatus.interviewInfo
                  | .draft => SessionStatus.draftInfo
                match repoUpdateSessionStatus db1 sid st with
                | .error e => (.error e, db1)
                | .ok (s1, db2) => (.ok s1, db2)

/-- `StartManualContext`: `SELECT_OR_CREATE_PROJECT → ASK_USER_CONTEXT`. -/
def StartManualContext (db : DB) (sid : String) :
    Except String Session × DB :=
  match getSessionByID db sid with
  | .error e => (.error e, db)
  | .ok s =>
      if s.status != SessionStatus.selectOrCreateProject then
        (.error "wrong action on status", db)
      else
        match repoUpdateSessionStatus db sid SessionStatus.askUserContext with
        | .error e => (.error e, db)
        | .ok (s1, db1) => (.ok s1, db1)

/-- `RestartModeSelection`: `INTERVIEW_INFO`/`DRAFT_INFO → CHOOSE_MODE`. -/
def RestartModeSelection (db : DB) (sid : String) :
    Except String Session × DB :=
  match getSessionByID db sid with
  | .error e => (.error e, db)
  | .ok s =>
      if s.status != SessionStatus.interviewInfo &&
          s.status != SessionStatus.draftInfo then
        (.error "wrong action on status", db)
      else
        match repoUpdateSessionStatus db sid SessionStatus.chooseMode with
        | .error e => (.error e, db)
        | .ok (s1, db1) => (.ok s1, db1)

/-- `RestartProjectSelection`: `CHOOSE_MODE → SELECT_OR_CREATE_PROJECT`. -/
def RestartProjectSelection (db : DB) (sid : String) :
    Except String Session × DB :=
  match getSessionByID db sid with
  | .error e => (.error e, db)
  | .ok s =>
      if s.status != SessionStatus.chooseMode then
        (.error "wrong action on status", db)
      else
        match repoUpdateSessionStatus db sid
            SessionStatus.selectOrCreateProject with
        | .error e => (.error e, db)
        | .ok (s1, db1) => (.ok s1, db1)

/-- `StartDraftCollecting`: requires mode `DRAFT` and status `DRAFT_INFO`. -/
def StartDraftCollecting (db : DB) (sid : String) :
    Except String Session × DB :=
  match getSessionByID db sid with
  | .error e => (.error e, db)
  | .ok s =>
      if s.stype != some SessionType.draft then
        (.error "wrong session type for draft collecting", db)
      else if s.status != SessionStatus.draftInfo then
        (.error "wrong action on status", db)
      else
        match repoUpdateSessionStatus db sid SessionStatus.draftCollecting with
        | .error e => (.error e, db)
        | .ok (s1, db1) => (.ok s1, db1)

/-- `LoadSessionQuestions`: requires `INTERVIEW_INFO`, goal and context set;
generates blocks through the Reasoning Gateway, saves them, then writes
`WAITING_FOR_ANSWERS` (the source performs that status write twice). -/
def LoadSessionQuestions (db : DB) (sid : String)
    (llmGenerate : Except String (List QuestionsBlock))
    (mkIterId : Nat → String) (mkQId : Nat → Nat → String) :
    Except String (List IterationWithQuestions) × DB :=
  match getSessionByID db sid with
  | .error e => (.error e, db)
  | .ok s =>
      if s.status != SessionStatus.interviewInfo then
        (.error "wrong action on status", db)
      else if s.userGoal.getD "" == "" then
        (.error "user goal must be set before generating questions", db)
      else if s.projectContext.getD "" == "" then
        (.error "project context must be set before generating questions", db)
      else
        let projDescr : Except String (Option String) :=
          match s.projectId with
          | some pid =>
              if pid != "" then
                match findProject db pid with
                | none => .error "get project description"
                | some p =>
                    if p.description == "" then
                      .error "get project description"
                    else .ok (some p.description)
              else .ok none
          | none => .ok none
        match projDescr with
        | .error e => (.error e, db)
        | .ok _ =>
            let blocksRes : Except String (List QuestionsBlock) :=
              match llmGenerate with
              | .error e => .error ("generate questions: " ++ e)
              | .ok blocks =>
                  if blocks.isEmpty then .error "no questions generated"
                  else .ok blocks
            match blocksRes with
            | .error e => (.error e, db)
            | .ok blocks =>
                match saveQuestionsToDatabase db sid blocks mkIterId mkQId with
                | (.error e, db1) => (.error e, db1)
                | (.ok dtos, db1) =>
                    match repoUpdateSessionStatus db1 sid
                        SessionStatus.waitingForAnswers with
                    | .error e => (.error e, db1)
                    | .ok (_, db2) =>
                        match repoUpdateSessionStatus db2 sid
                            SessionStatus.waitingForAnswers with
                        | .error e => (.error e, db2)
                        | .ok (_, db3) => (.ok dtos, db3)

/-- `SubmitAudioAnswer`. -/
def SubmitAudioAnswer (db : DB) (sid qid : String)
    (tr : Except String String) (now : Nat) :
    Except String (Option IterationWithQuestions) × DB :=
  match getSessionByID db sid with
  | .error e => (.error e, db)
  | .ok s =>
      if s.status != SessionStatus.waitingForAnswers then
        (.error "wrong action on status", db)
      else
        match transcribeAudio tr with
        | .error e => (.error ("failed to transcribe audio: " ++ e), db)
        | .ok t => SubmitTextAnswer db sid qid t now

/-- `AddDraftMessage`: requires `DRAFT_COLLECTING`. -/
def AddDraftMessage (db : DB) (sid text mid : String) (now : Nat) :
    Except String SessionMessage × DB :=
  match getSessionByID db sid with
  | .error e => (.error e, db)
  | .ok s =>
      if s.status != SessionStatus.draftCollecting then
        (.error "invalid session status for adding draft message", db)
      else
        let r := repoCreateMessage db
          { id := mid, sessionId := sid, messageText := text, createdAt := now }
        (.ok r.1, r.2)

/-- `AddAudioDraftMessage`. -/
def AddAudioDraftMessage (db : DB) (sid : String)
    (tr : Except String String) (mid : String) (now : Nat) :
    Except String SessionMessage × DB :=
  match getSessionByID db sid with
  | .error e => (.error e, db)
  | .ok s =>
      if s.status != SessionStatus.draftCollecting then
        (.error "invalid session status for adding draft message", db)
      else
        match transcribeAudio tr with
        | .error e => (.error ("failed to transcribe audio: " ++ e), db)
        | .ok t => AddDraftMessage db sid t mid now

/-- The use-case `UpdateSessionStatus`: loads the session only for logging
and then writes the requested status unconditionally (no guard). -/
def UpdateSessionStatusUC (db : DB) (sid : String) (st : SessionStatus) :
    Except String Session × DB :=
  match getSessionByID db sid with
  | .error e => (.error e, db)
  | .ok _ =>
      match repoUpdateSessionStatus db sid st with
      | .error e => (.error e, db)
      | .ok (s1, db1) => (.ok s1, db1)

/-! ### The guarded mutating operations, as one indexed dispatcher

`EngineOp` enumerates the status-guarded mutating operations of
`SessionUsecase`.  The two unguarded writers — `SetWaitingForAnswersStatus`
and the `UpdateSessionStatus` pass-through — are deliberately not in this
list; they are analysed separately. -/

inductive EngineOp where
  | opSubmitTextUserGoal (goal : String)
  | opSubmitAudioUserGoal (tr : Except String String)
  | opSubmitRAGProjectContext (pid : String) (rag : Except String String)
  | opSubmitTextUserProjectContext (questions answers : String)
  | opSubmitAudioUserProjectContext (questions : String)
      (tr : Except String String)
  | opSetSessionType (ty : SessionType)
  | opStartManualContext
  | opRestartModeSelection
  | opRestartProjectSelection
  | opStartDraftCollecting
  | opLoadSessionQuestions (llm : Except String (List QuestionsBlock))
      (mkI : Nat → String) (mkQ : Nat → Nat → String)
  | opSkipAnswer (qid : String)
  | opSubmitTextAnswer (qid answer : String) (now : Nat)
  | opSubmitAudioAnswer (qid : String) (tr : Except String String) (now : Nat)
  | opSkipSkipedQuestion (qid : String)
  | opValidateAnswers
      (llm : List (String × String) → Except String (List GenQuestion))
      (mkI : Nat → String) (mkQ : Nat → Nat → String)
  | opValidateDraftMessages
      (llm : List String → List (String × String) →
        Except String (List GenQuestion))
      (mkI : Nat → String) (mkQ : Nat → Nat → String)
  | opGenerateSummary (llm : List (String × String) → Except String String)
  | opGenerateDraftSummary
      (llm : List String → List (String × String) → Except String String)
  | opCancelSession
  | opAddDraftMessage (text mid : String) (now : Nat)
  | opAddAudioDraftMessage (tr : Except String String) (mid : String)
      (now : Nat)

/-- Run one guarded operation, forgetting its result value. -/
def runOp (op : EngineOp) (db : DB) (sid : String) : Except String Unit × DB :=
  match op with
  | .opSubmitTextUserGoal goal =>
      let r := SubmitTextUserGoal db sid goal
      (r.1.map (fun _ => ()), r.2)
  | .opSubmitAudioUserGoal tr =>
      let r := SubmitAudioUserGoal db sid tr
      (r.1.map (fun _ => ()), r.2)
  | .opSubmitRAGProjectContext pid rag =>
      let r := SubmitRAGProjectContext db sid pid rag
      (r.1.map (fun _ => ()), r.2)
  | .opSubmitTextUserProjectContext questions answers =>
      let r := SubmitTextUserProjectContext db sid questions answers
      (r.1.map (fun _ => ()), r.2)
  | .opSubmitAudioUserProjectContext questions tr =>
      let r := SubmitAudioUserProjectContext db sid questions tr
      (r.1.map (fun _ => ()), r.2)
  | .opSetSessionType ty =>
      let r := SetSessionType db sid ty
      (r.1.map (fun _ => ()), r.2)
  | .opStartManualContext =>
      let r := StartManualContext db sid
      (r.1.map (fun _ => ()), r.2)
  | .opRestartModeSelection =>
      let r := RestartModeSelection db sid
      (r.1.map (fun _ => ()), r.2)
  | .opRestartProjectSelection =>
      let r := RestartProjectSelection db sid
      (r.1.map (fun _ => ()), r.2)
  | .opStartDraftCollecting =>
      let r := StartDraftCollecting db sid
      (r.1.map (fun _ => ()), r.2)
  | .opLoadSessionQuestions llm mkI mkQ =>
      let r := LoadSessionQuestions db sid llm mkI mkQ
      (r.1.map (fun _ => ()), r.2)
  | .opSkipAnswer qid =>
      let r := SkipAnswer db sid qid
      (r.1.map (fun _ => ()), r.2)
  | .opSubmitTextAnswer qid answer now =>
      let r := SubmitTextAnswer db sid qid answer now
      (r.1.map (fun _ => ()), r.2)
  | .opSubmitAudioAnswer qid tr now =>
      let r := SubmitAudioAnswer db sid qid tr now
      (r.1.map (fun _ => ()), r.2)
  | .opSkipSkipedQuestion qid =>
      let r := SkipSkipedQuestion db sid qid
      (r.1.map (fun _ => ()), r.2)
  | .opValidateAnswers llm mkI mkQ =>
      let r := ValidateAnswers db sid llm mkI mkQ
      (r.1.map (fun _ => ()), r.2)
  | .opValidateDraftMessages llm mkI mkQ =>
      let r := ValidateDraftMessages db sid llm mkI mkQ
      (r.1.map (fun _ => ()), r.2)
  | .opGenerateSummary llm =>
      let r := GenerateSummary db sid llm
      (r.1.map (fun _ => ()), r.2)
  | .opGenerateDraftSummary llm =>
      let r := GenerateDraftSummary db sid llm
      (r.1.map (fun _ => ()), r.2)
  | .opCancelSession =>
      let r := CancelSession db sid
      (r.1.map (fun _ => ()), r.2)
  | .opAddDraftMessage text mid now =>
      let r := AddDraftMessage db sid text mid now
      (r.1.map (fun _ => ()), r.2)
  | .opAddAudioDraftMessage tr mid now =>
      let r := AddAudioDraftMessage db sid tr mid now
      (r.1.map (fun _ => ()), r.2)

/-- The declared requirement set of each guarded operation (§4.1 of the
spec), read off the `session.Status != ...` guards of the source. -/
def statusAllowed (op : EngineOp) (st : SessionStatus) : Bool :=
  match op with
  | .opSubmitTextUserGoal _ => st == SessionStatus.askUserGoal
  | .opSubmitAudioUserGoal _ => st == SessionStatus.askUserGoal
  | .opSubmitRAGProjectContext _ _ => st == SessionStatus.selectOrCreateProject
  | .opSubmitTextUserProjectContext _ _ => st == SessionStatus.askUserContext
  | .opSubmitAudioUserProjectContext _ _ => st == SessionStatus.askUserContext
  | .opSetSessionType _ => st == SessionStatus.chooseMode
  | .opStartManualContext => st == SessionStatus.selectOrCreateProject
  | .opRestartModeSelection =>
      st == SessionStatus.interviewInfo || st == SessionStatus.draftInfo
  | .opRestartProjectSelection => st == SessionStatus.chooseMode
  | .opStartDraftCollecting => st == SessionStatus.draftInfo
  | .opLoadSessionQuestions _ _ _ => st == SessionStatus.interviewInfo
  | .opSkipAnswer _ => st == SessionStatus.waitingForAnswers
  | .opSubmitTextAnswer _ _ _ => st == SessionStatus.waitingForAnswers
  | .opSubmitAudioAnswer _ _ _ => st == SessionStatus.waitingForAnswers
  | .opSkipSkipedQuestion _ => st == SessionStatus.waitingForAnswers
  | .opValidateAnswers _ _ _ =>
      st == SessionStatus.validating || st == SessionStatus.waitingForAnswers
  | .opValidateDraftMessages _ _ _ =>
      st == SessionStatus.draftCollecting ||
      st == SessionStatus.waitingForAnswers || st == SessionStatus.validating
  | .opGenerateSummary _ =>
      st == SessionStatus.generatingRequirements ||
      st == SessionStatus.waitingForAnswers
  | .opGenerateDraftSummary _ =>
      st == SessionStatus.generatingRequirements ||
      st == SessionStatus.waitingForAnswers
  | .opCancelSession =>
      !(st == SessionStatus.done || st == SessionStatus.canceled)
  | .opAddDraftMessage _ _ _ => st == SessionStatus.draftCollecting
  | .opAddAudioDraftMessage _ _ _ => st == SessionStatus.draftCollecting

/-! ### The chat front-end's destructive-action confirmation flow -/

/-- The `telegram_sessions` row of one user: the linked engine session id
and, of the `StateData` blob, the `pending_confirmation` token (the only
state-data field the confirmation flow reads or writes). -/
structure TgSession where
  userId : Int
  sessionId : String
  pendingConfirmation : String
deriving DecidableEq, Repr

/-- The state a chat handler sees: the user's telegram-session row (if any)
and the engine's store. -/
structure ChatEnv where
  tg : Option TgSession
  db : DB
deriving DecidableEq, Repr

/-- Outcome of a chat handler: the handler's return value, the resulting
state, and whether the destructive action (cancel session + delete user
state) was performed. -/
structure ChatOutcome where
  res : Except String Unit
  env : ChatEnv
  acted : Bool
deriving Repr

/-- `handleFinish` of `internal/telegram/handlers/callback.go`: if no
confirmation is pending it records the `"finish"` token and shows the
prompt; otherwise it cancels the session and deletes the user state. -/
def handleFinish (env : ChatEnv) : ChatOutcome :=
  match env.tg with
  | none => { res := .error "get state data", env := env, acted := false }
  | some t =>
      if t.pendingConfirmation != "finish" then
        { res := .ok ()
          env := { env with tg := some { t with pendingConfirmation := "finish" } }
          acted := false }
      else
        { res := .ok ()
          env := { tg := none, db := (CancelSession env.db t.sessionId).2 }
          acted := true }

/-- `handleConfirmation` of `callback.go`: on value `"cancel"` or
`"finish"` the destructive action runs whenever the *stored* token is
`"cancel"` or `"finish"` (the value is not compared against the stored
token); `"continue"` clears the token; anything else is an error. -/
def handleConfirmation (env : ChatEnv) (value : String) : ChatOutcome :=
  match env.tg with
  | none => { res := .error "get state data", env := env, acted := false }
  | some t =>
      if value == "cancel" || value == "finish" then
        if t.pendingConfirmation == "cancel" ||
            t.pendingConfirmation == "finish" then
          let db1 :=
            if t.sessionId != "" then (CancelSession env.db t.sessionId).2
            else env.db
          { res := .ok (), env := { tg := none, db := db1 }, acted := true }
        else
          { res := .ok (), env := env, acted := false }
      else if value == "continue" then
        { res := .ok ()
          env := { env with tg := some { t with pendingConfirmation := "" } }
          acted := false }
      else
        { res := .error "unknown confirmation value", env := env, acted := false }

/-- `handleAnswerSkipped` of `callback.go`, reduced to its engine effect:
after checking that unanswered/skipped questions exist it calls
`SetWaitingForAnswersStatus` — even when the session is already `DONE`. -/
def handleAnswerSkippedEngineEffect (env : ChatEnv) : Except String Unit × DB :=
  match env.tg with
  | none => (.error "get user state", env.db)
  | some t =>
      if (getUnansweredQuestions env.db t.sessionId).isEmpty then
        (.ok (), env.db)
      else SetWaitingForAnswersStatus env.db t.sessionId

/-- Modelled from the spec (§4.1/§9): the conditional status update the
spec prescribes — `UPDATE sessions SET status = X WHERE id = Y AND
status = Z`, failing (zero rows, treated as an invalid-state error) when
the stored status is not `Z`.  This is the spec-side definition the code's
`repoUpdateSessionStatus` is compared against for claim C6. -/
def updateSessionStatusCAS (db : DB) (id : String)
    (guardSt newSt : SessionStatus) : Except String (Session × DB) :=
  match db.sessions.find? (fun s => s.id == id && s.status == guardSt) with
  | none => .error "update session status: no rows"
  | some s =>
      .ok ({ s with status := newSt },
        { db with sessions :=
            db.sessions.map (fun t =>
              if t.id == id && t.status == guardSt then
                { t with status := newSt } else t) })

/-- All session statuses, used to state finite quantifications as closed
boolean facts. -/
def allStatuses : List SessionStatus :=
  [SessionStatus.statusNew, SessionStatus.askUserGoal,
   SessionStatus.selectOrCreateProject, SessionStatus.askUserContext,
   SessionStatus.chooseMode, SessionStatus.interviewInfo,
   SessionStatus.draftInfo, SessionStatus.generatingQuestions,
   SessionStatus.waitingForAnswers, SessionStatus.draftCollecting,
   SessionStatus.validating, SessionStatus.generatingRequirements,
   SessionStatus.done, SessionStatus.errored, SessionStatus.canceled,
   SessionStatus.askProjectName, SessionStatus.askProjectDescription]

/-! ### Concrete stores used by counterexamples and witnesses -/

/-- Session row builder for the concrete stores below. -/
def mkSess (st : SessionStatus) : Session :=
  { id := "s1", status := st, userGoal := some "g",
    projectContext := some "c", currentIteration := 1 }

/-- Iteration row builder for the concrete stores below. -/
def mkIter (iid : String) (n : Int) : Iteration :=
  { id := iid, sessionId := "s1", iterationNumber := n, title := "Блок" }

/-- Question row builder for the concrete stores below. -/
def mkQ (qid : String) (n : Int) (st : QuestionStatus) : Question :=
  { id := qid, iterationId := "i1", questionNumber := n, status := st,
    question := "Q" ++ qid, explanation := "E" ++ qid }

/-- A session already finished (`DONE`), with a stored result and one
skipped question left over. -/
def dbDone : DB :=
  { sessions := [{ mkSess SessionStatus.done with result := some "r" }]
    iterations := [mkIter "i1" 1]
    questions := [mkQ "q1" 1 QuestionStatus.skiped]
    messages := []
    projects := [] }

/-- A `WAITING_FOR_ANSWERS` session with one iteration holding a single
still-unanswered question. -/
def dbOneOpen : DB :=
  { sessions := [mkSess SessionStatus.waitingForAnswers]
    iterations := [mkIter "i1" 1]
    questions := [mkQ "q1" 1 QuestionStatus.unanswered]
    messages := []
    projects := [] }

/-- A `WAITING_FOR_ANSWERS` session whose first question is already
answered ("hello") and whose second question is still unanswered. -/
def dbAnswered : DB :=
  { sessions := [mkSess SessionStatus.waitingForAnswers]
    iterations := [mkIter "i1" 1]
    questions := [{ mkQ "q1" 1 QuestionStatus.answered with
                    answer := some "hello", answeredAt := some 1 },
                  mkQ "q2" 2 QuestionStatus.unanswered]
    messages := []
    projects := [] }

/-- A `DRAFT_COLLECTING` session with one draft message and no iterations. -/
def dbDraft : DB :=
  { sessions := [{ mkSess SessionStatus.draftCollecting with
                   stype := some SessionType.draft }]
    iterations := []
    questions := []
    messages := [{ id := "m1", sessionId := "s1", messageText := "draft",
                   createdAt := 1 }]
    projects := [] }

/-- A session in `VALIDATING` with all questions answered, ready for the
refinement round. -/
def dbValidating : DB :=
  { sessions := [mkSess SessionStatus.validating]
    iterations := [mkIter "i1" 1]
    questions := [{ mkQ "q1" 1 QuestionStatus.answered with
                    answer := some "a1", answeredAt := some 1 }]
    messages := []
    projects := [] }

/-- A session already `CANCELED`. -/
def dbCanceled : DB :=
  { sessions := [{ id := "s1", status := SessionStatus.canceled }]
    iterations := []
    questions := []
    messages := []
    projects := [] }

/-- Chat state: confirmation token `"finish"` pending, engine session
`"s1"` still `WAITING_FOR_ANSWERS`. -/
def envPendingFinish : ChatEnv :=
  { tg := some { userId := 1, sessionId := "s1",
                 pendingConfirmation := "finish" }
    db := dbOneOpen }

/-- Deterministic id generators standing in for `uuid.New()`. -/
def mkIterIdW (n : Nat) : String := "it-" ++ toString n

/-- Deterministic question-id generator standing in for `uuid.New()`. -/
def mkQIdW (b q : Nat) : String := "q-" ++ toString b ++ "-" ++ toString q

/-! ### Generic list lemmas -/

theorem find?_map_eqPred {α : Type} (f : α → α) (p : α → Bool)
    (hp : ∀ t, p (f t) = p t) (l : List α) :
    (l.map f).find? p = (l.find? p).map f := by
  rw [List.find?_map]
  have hfp : p ∘ f = p := funext hp
  rw [hfp]

theorem filter_map_eqPred {α : Type} (f : α → α) (p : α → Bool)
    (hp : ∀ t, p (f t) = p t) (l : List α) :
    (l.map f).filter p = (l.filter p).map f := by
  rw [List.filter_map]
  have hfp : p ∘ f = p := funext hp
  rw [hfp]

theorem mem_insertLeBy {le : α → α → Bool} {a b : α} {l : List α} :
    b ∈ insertLeBy le a l ↔ b = a ∨ b ∈ l := by
  induction l with
  | nil => simp [insertLeBy]
  | cons h t ih =>
      by_cases hle : le a h = true
      · simp [insertLeBy, hle]
      · simp only [insertLeBy, hle]
        simp [ih]
        tauto

theorem mem_sortLeBy {le : α → α → Bool} {b : α} {l : List α} :
    b ∈ sortLeBy le l ↔ b ∈ l := by
  induction l with
  | nil => simp [sortLeBy]
  | cons h t ih => simp [sortLeBy, mem_insertLeBy, ih]

theorem length_insertLeBy {le : α → α → Bool} (a : α) (l : List α) :
    (insertLeBy le a l).length = l.length + 1 := by
  induction l with
  | nil => rfl
  | cons h t ih =>
      by_cases hle : le a h = true
      · simp [insertLeBy, hle]
      · simp [insertLeBy, hle, ih]

theorem length_sortLeBy {le : α → α → Bool} (l : List α) :
    (sortLeBy le l).length = l.length := by
  induction l with
  | nil => rfl
  | cons h t ih => simp [sortLeBy, length_insertLeBy, ih]

theorem insertLeBy_map {α : Type} {le : α → α → Bool} (f : α → α)
    (hle : ∀ a b, le (f a) (f b) = le a b) (a : α) (l : List α) :
    insertLeBy le (f a) (l.map f) = (insertLeBy le a l).map f := by
  induction l with
  | nil => rfl
  | cons h t ih =>
      by_cases hab : le a h = true
      · simp [insertLeBy, hle, hab]
      · simp [insertLeBy, hle, hab, ih]

theorem sortLeBy_map {α : Type} {le : α → α → Bool} (f : α → α)
    (hle : ∀ a b, le (f a) (f b) = le a b) (l : List α) :
    sortLeBy le (l.map f) = (sortLeBy le l).map f := by
  induction l with
  | nil => rfl
  | cons h t ih => simp [sortLeBy, ih, insertLeBy_map f hle]

theorem le_foldl_max (l : List Int) :
    ∀ a : Int, a ≤ l.foldl max a ∧ ∀ n ∈ l, n ≤ l.foldl max a := by
  induction l with
  | nil => intro a; simp
  | cons h t ih =>
      intro a
      refine ⟨le_trans (le_max_left a h) (ih (max a h)).1, ?_⟩
      intro n hn
      cases List.mem_cons.mp hn with
      | inl heq =>
          rw [heq]
          exact le_trans (le_max_right a h) (ih (max a h)).1
      | inr hmem => exact (ih (max a h)).2 n hmem

/-! ### Effect lemmas for the repository writes -/

theorem findSession_eq_id {db : DB} {x : String} {s : Session}
    (h : findSession db x = some s) : s.id = x := by
  have hp := List.find?_some h
  simpa using hp

theorem findSession_mapIf (db : DB) (x : String) (h : Session → Session)
    (hid : ∀ t, (h t).id = t.id) (y : String) :
    findSession
        { db with sessions :=
            db.sessions.map (fun t => if t.id == x then h t else t) } y =
      (findSession db y).map (fun t => if t.id == x then h t else t) := by
  unfold findSession
  apply find?_map_eqPred
  intro t
  by_cases hx : (t.id == x) = true
  · simp [hx, hid]
  · simp [hx]

theorem sessionStatus_mapStatus (db : DB) (x : String) (st : SessionStatus)
    (y : String) :
    sessionStatus
        { db with sessions :=
            db.sessions.map (fun t =>
              if t.id == x then { t with status := st } else t) } y =
      (findSession db y).map (fun u => if u.id == x then st else u.status) := by
  unfold sessionStatus
  rw [findSession_mapIf db x (fun t => { t with status := st }) (fun _ => rfl) y]
  cases findSession db y with
  | none => rfl
  | some u =>
      by_cases hx : u.id = x
      · simp [hx]
      · simp [hx]

theorem sessionStatus_mapIter (db : DB) (x y : String) :
    sessionStatus
        { db with sessions :=
            db.sessions.map (fun t =>
              if t.id == x then
                { t with currentIteration := t.currentIteration + 1 }
              else t) } y =
      sessionStatus db y := by
  unfold sessionStatus
  rw [findSession_mapIf db x
    (fun t => { t with currentIteration := t.currentIteration + 1 })
    (fun _ => rfl) y]
  cases findSession db y with
  | none => rfl
  | some u =>
      by_cases hx : u.id = x
      · simp [hx]
      · simp [hx]

theorem repoUpdateSessionStatus_of_some {db : DB} {x : String} {s : Session}
    (hs : findSession db x = some s) (st : SessionStatus) :
    repoUpdateSessionStatus db x st =
      .ok ({ s with status := st },
        { db with sessions :=
            db.sessions.map (fun t =>
              if t.id == x then { t with status := st } else t) }) := by
  unfold repoUpdateSessionStatus
  rw [hs]

/-- The store produced by a successful `UpdateSessionStatus` write. -/
def setStatusDB (db : DB) (x : String) (st : SessionStatus) : DB :=
  { db with sessions :=
      db.sessions.map (fun t =>
        if t.id == x then { t with status := st } else t) }

theorem repoUpdateSessionStatus_of_some2 {db : DB} {x : String} {s : Session}
    (hs : findSession db x = some s) (st : SessionStatus) :
    repoUpdateSessionStatus db x st =
      .ok ({ s with status := st }, setStatusDB db x st) :=
  repoUpdateSessionStatus_of_some hs st

theorem repoUpdateSessionStatus_inv {db : DB} {x : String}
    {st : SessionStatus} {a : Session} {db1 : DB}
    (h : repoUpdateSessionStatus db x st = .ok (a, db1)) :
    db1 = { db with sessions :=
        db.sessions.map (fun t =>
          if t.id == x then { t with status := st } else t) } := by
  unfold repoUpdateSessionStatus at h
  cases hf : findSession db x <;> rw [hf] at h
  · exact absurd h (by simp)
  · simp only [Except.ok.injEq, Prod.mk.injEq] at h
    exact h.2.symm

theorem repoUpdateSessionIteration_inv {db : DB} {x : String}
    {a : Session} {db1 : DB}
    (h : repoUpdateSessionIteration db x = .ok (a, db1)) :
    db1 = { db with sessions :=
        db.sessions.map (fun t =>
          if t.id == x then
            { t with currentIteration := t.currentIteration + 1 }
          else t) } := by
  unfold repoUpdateSessionIteration at h
  cases hf : findSession db x <;> rw [hf] at h
  · exact absurd h (by simp)
  · simp only [Except.ok.injEq, Prod.mk.injEq] at h
    exact h.2.symm

/-- The store left behind by `getCurrentIteration` is either untouched or
has only the session's `current_iteration` pointer incremented. -/
theorem getCurrentIteration_snd (db : DB) (sid : String) :
    (getCurrentIteration db sid).2 = db ∨
    (getCurrentIteration db sid).2 =
      { db with sessions :=
          db.sessions.map (fun t =>
            if t.id == sid then
              { t with currentIteration := t.currentIteration + 1 }
            else t) } := by
  unfold getCurrentIteration
  dsimp only
  split
  · exact Or.inl rfl
  · split
    · exact Or.inl rfl
    · split
      · exact Or.inl rfl
      · split
        · exact Or.inl rfl
        · split
          · exact Or.inl rfl
          · rename_i hupd
            have hdb1 := repoUpdateSessionIteration_inv hupd
            split
            · exact Or.inr (by rw [hdb1])
            · exact Or.inr (by rw [hdb1])

theorem getCurrentIteration_questions (db : DB) (sid : String) :
    (getCurrentIteration db sid).2.questions = db.questions := by
  rcases getCurrentIteration_snd db sid with h | h <;> rw [h]

theorem getCurrentIteration_iterations (db : DB) (sid : String) :
    (getCurrentIteration db sid).2.iterations = db.iterations := by
  rcases getCurrentIteration_snd db sid with h | h <;> rw [h]

theorem getCurrentIteration_status (db : DB) (sid y : String) :
    sessionStatus (getCurrentIteration db sid).2 y = sessionStatus db y := by
  rcases getCurrentIteration_snd db sid with h | h <;> rw [h]
  exact sessionStatus_mapIter db sid y

/-- `getUnansweredQuestions` reads only the iterations and questions. -/
theorem getUnansweredQuestions_congr {dbA dbB : DB} (sid : String)
    (hit : dbA.iterations = dbB.iterations)
    (hq : dbA.questions = dbB.questions) :
    getUnansweredQuestions dbA sid = getUnansweredQuestions dbB sid := by
  unfold getUnansweredQuestions listIterationsBySession listQuestionsByIteration
  rw [hit, hq]

/-- `hasAdditionalBlock` reads only the iterations. -/
theorem hasAdditionalBlock_congr {dbA dbB : DB} (sid : String)
    (hit : dbA.iterations = dbB.iterations) :
    hasAdditionalBlock dbA sid = hasAdditionalBlock dbB sid := by
  unfold hasAdditionalBlock listIterationsBySession
  rw [hit]

theorem SessionType_Validate_ok (ty : SessionType) :
    SessionType.Validate ty = .ok () := by
  cases ty <;> rfl

/-! ### C1 -/

/-- C1 (amended): every *guarded* mutating engine operation fails and leaves
the store untouched when the session's current status is outside the
operation's declared requirement set.  The exceptions, excluded from
`EngineOp`, are `SetWaitingForAnswersStatus` and the `UpdateSessionStatus`
pass-through, which write with no status guard (see the counterexample). -/
theorem guarded_ops_respect_status :
    ∀ (op : EngineOp) (db : DB) (sid : String) (s : Session),
      findSession db sid = some s →
      statusAllowed op s.status = false →
      (runOp op db sid).1.isOk = false ∧ (runOp op db sid).2 = db := by
  intro op db sid s hs hst
  have hok : getSessionByID db sid = Except.ok s := by
    unfold getSessionByID; rw [hs]
  cases op with
  | opSubmitTextUserGoal goal =>
      simp only [statusAllowed, beq_eq_false_iff_ne] at hst
      simp [runOp, SubmitTextUserGoal, hok, hst, Except.map, Except.isOk, Except.toBool]
  | opSubmitAudioUserGoal tr =>
      simp only [statusAllowed, beq_eq_false_iff_ne] at hst
      simp [runOp, SubmitAudioUserGoal, hok, hst, Except.map, Except.isOk, Except.toBool]
  | opSubmitRAGProjectContext pid rag =>
      simp only [statusAllowed, beq_eq_false_iff_ne] at hst
      simp [runOp, SubmitRAGProjectContext, hok, hst, Except.map, Except.isOk, Except.toBool]
  | opSubmitTextUserProjectContext questions answers =>
      simp only [statusAllowed, beq_eq_false_iff_ne] at hst
      simp [runOp, SubmitTextUserProjectContext, hok, hst, Except.map,
        Except.isOk, Except.toBool]
  | opSubmitAudioUserProjectContext questions tr =>
      simp only [statusAllowed, beq_eq_false_iff_ne] at hst
      simp [runOp, SubmitAudioUserProjectContext, hok, hst, Except.map,
        Except.isOk, Except.toBool]
  | opSetSessionType ty =>
      simp only [statusAllowed, beq_eq_false_iff_ne] at hst
      simp [runOp, SetSessionType, SessionType_Validate_ok, hok, hst,
        Except.map, Except.isOk, Except.toBool]
  | opStartManualContext =>
      simp only [statusAllowed, beq_eq_false_iff_ne] at hst
      simp [runOp, StartManualContext, hok, hst, Except.map, Except.isOk, Except.toBool]
  | opRestartModeSelection =>
      simp only [statusAllowed, Bool.or_eq_false_iff, beq_eq_false_iff_ne] at hst
      simp [runOp, RestartModeSelection, hok, hst.1, hst.2, Except.map,
        Except.isOk, Except.toBool]
  | opRestartProjectSelection =>
      simp only [statusAllowed, beq_eq_false_iff_ne] at hst
      simp [runOp, RestartProjectSelection, hok, hst, Except.map, Except.isOk, Except.toBool]
  | opStartDraftCollecting =>
      simp only [statusAllowed, beq_eq_false_iff_ne] at hst
      by_cases hty : (s.stype != some SessionType.draft) = true <;>
        simp [runOp, StartDraftCollecting, hok, hst, hty, Except.map,
          Except.isOk, Except.toBool]
  | opLoadSessionQuestions llm mkI mkQ =>
      simp only [statusAllowed, beq_eq_false_iff_ne] at hst
      simp [runOp, LoadSessionQuestions, hok, hst, Except.map, Except.isOk, Except.toBool]
  | opSkipAnswer qid =>
      simp only [statusAllowed, beq_eq_false_iff_ne] at hst
      simp [runOp, SkipAnswer, hok, hst, Except.map, Except.isOk, Except.toBool]
  | opSubmitTextAnswer qid answer now =>
      simp only [statusAllowed, beq_eq_false_iff_ne] at hst
      simp [runOp, SubmitTextAnswer, hok, hst, Except.map, Except.isOk, Except.toBool]
  | opSubmitAudioAnswer qid tr now =>
      simp only [statusAllowed, beq_eq_false_iff_ne] at hst
      simp [runOp, SubmitAudioAnswer, hok, hst, Except.map, Except.isOk, Except.toBool]
  | opSkipSkipedQuestion qid =>
      simp only [statusAllowed, beq_eq_false_iff_ne] at hst
      simp [runOp, SkipSkipedQuestion, hok, hst, Except.map, Except.isOk, Except.toBool]
  | opValidateAnswers llm mkI mkQ =>
      simp only [statusAllowed, Bool.or_eq_false_iff, beq_eq_false_iff_ne] at hst
      simp [runOp, ValidateAnswers, hok, hst.1, hst.2, Except.map, Except.isOk, Except.toBool]
  | opValidateDraftMessages llm mkI mkQ =>
      simp only [statusAllowed, Bool.or_eq_false_iff, beq_eq_false_iff_ne] at hst
      simp [runOp, ValidateDraftMessages, hok, hst.1.1, hst.1.2, hst.2,
        Except.map, Except.isOk, Except.toBool]
  | opGenerateSummary llm =>
      simp only [statusAllowed, Bool.or_eq_false_iff, beq_eq_false_iff_ne] at hst
      simp [runOp, GenerateSummary, hok, hst.1, hst.2, Except.map, Except.isOk, Except.toBool]
  | opGenerateDraftSummary llm =>
      simp only [statusAllowed, Bool.or_eq_false_iff, beq_eq_false_iff_ne] at hst
      simp [runOp, GenerateDraftSummary, hok, hst.1, hst.2, Except.map,
        Except.isOk, Except.toBool]
  | opCancelSession =>
      simp only [statusAllowed] at hst
      have hst2 : s.status = SessionStatus.done ∨
          s.status = SessionStatus.canceled := by
        have := hst
        simp only [Bool.not_eq_false', Bool.or_eq_true, beq_iff_eq] at this
        exact this
      simp [runOp, CancelSession, hok, hst2, Except.map, Except.isOk,
        Except.toBool]
  | opAddDraftMessage text mid now =>
      simp only [statusAllowed, beq_eq_false_iff_ne] at hst
      simp [runOp, AddDraftMessage, hok, hst, Except.map, Except.isOk, Except.toBool]
  | opAddAudioDraftMessage tr mid now =>
      simp only [statusAllowed, beq_eq_false_iff_ne] at hst
      simp [runOp, AddAudioDraftMessage, hok, hst, Except.map, Except.isOk, Except.toBool]

/-- C1 counterexample: `SetWaitingForAnswersStatus` succeeds on a session
whose status is the terminal `DONE` and moves it back to
`WAITING_FOR_ANSWERS` — a session does leave a terminal status. -/
theorem setWaitingForAnswers_resurrects_done :
    sessionStatus dbDone "s1" = some SessionStatus.done ∧
    (SetWaitingForAnswersStatus dbDone "s1").1 = .ok () ∧
    sessionStatus (SetWaitingForAnswersStatus dbDone "s1").2 "s1" =
      some SessionStatus.waitingForAnswers := by
  refine ⟨rfl, rfl, rfl⟩

/-- C1 witness: `CancelSession` on a `DONE` session is rejected and the
store is unchanged. -/
theorem guarded_ops_respect_status_witness :
    (runOp EngineOp.opCancelSession dbDone "s1").1.isOk = false ∧
    (runOp EngineOp.opCancelSession dbDone "s1").2 = dbDone :=
  guarded_ops_respect_status EngineOp.opCancelSession dbDone "s1"
    { mkSess SessionStatus.done with result := some "r" } rfl rfl

/-! ### C2 -/

theorem sessionStatus_updateQuestionAnswer (db : DB) (qid a : String)
    (n : Nat) (y : String) :
    sessionStatus (repoUpdateQuestionAnswer db qid a n) y =
      sessionStatus db y := rfl

theorem sessionStatus_skipQuestion (db : DB) (qid y : String) :
    sessionStatus (repoSkipQuestion db qid) y = sessionStatus db y := rfl

theorem findSession_of_status {db : DB} {y : String} {st : SessionStatus}
    (h : sessionStatus db y = some st) :
    ∃ u, findSession db y = some u ∧ u.status = st := by
  unfold sessionStatus at h
  cases hf : findSession db y <;> rw [hf] at h <;> simp only [Option.map] at h
  · exact absurd h (by simp)
  · exact ⟨_, rfl, by simpa using h⟩

/-- Every question with the submitted id carries the new answer, the
`ANSWERED` status and the new timestamp after `UpdateQuestionAnswer`. -/
theorem updateQuestionAnswer_marks (db : DB) (qid ans : String) (now : Nat) :
    ∀ q1 ∈ (repoUpdateQuestionAnswer db qid ans now).questions, q1.id = qid →
      q1.status = QuestionStatus.answered ∧ q1.answer = some ans ∧
      q1.answeredAt = some now := by
  intro q1 hq1 hid
  unfold repoUpdateQuestionAnswer at hq1
  simp only [List.mem_map] at hq1
  obtain ⟨q0, _, hq0e⟩ := hq1
  by_cases h0 : (q0.id == qid) = true
  · rw [if_pos h0] at hq0e
    rw [← hq0e]
    exact ⟨rfl, rfl, rfl⟩
  · rw [if_neg h0] at hq0e
    rw [← hq0e] at hid
    exact absurd (by simp [hid] : (q0.id == qid) = true) h0

/-- C2: `submitAnswer` requires `WAITING_FOR_ANSWERS` (a mismatch fails
with no mutation); on success the identified question is `ANSWERED` with
the text and timestamp stored, and the session moves to `VALIDATING` if
and only if the recomputed iteration view is `none` *and* no
unanswered/skipped question remains anywhere in the session. -/
theorem submitAnswer_contract :
    (∀ (db : DB) (sid qid ans : String) (now : Nat) (s : Session),
        findSession db sid = some s →
        s.status ≠ SessionStatus.waitingForAnswers →
        SubmitTextAnswer db sid qid ans now =
          (.error "wrong action on status", db)) ∧
    (∀ (db : DB) (sid qid ans : String) (now : Nat) (s : Session)
        (res : Option IterationWithQuestions) (db1 : DB),
        findSession db sid = some s →
        s.status = SessionStatus.waitingForAnswers →
        SubmitTextAnswer db sid qid ans now = (.ok res, db1) →
        (∀ q1 ∈ db1.questions, q1.id = qid →
            q1.status = QuestionStatus.answered ∧ q1.answer = some ans ∧
            q1.answeredAt = some now) ∧
        (sessionStatus db1 sid = some SessionStatus.validating ↔
          (res = none ∧ getUnansweredQuestions db1 sid = []))) := by
  constructor
  · intro db sid qid ans now s hs hst
    have hok : getSessionByID db sid = Except.ok s := by
      unfold getSessionByID; rw [hs]
    unfold SubmitTextAnswer
    rw [hok]
    simp [hst]
  · intro db sid qid ans now s res db1 hs hst hrun
    have hok : getSessionByID db sid = Except.ok s := by
      unfold getSessionByID; rw [hs]
    unfold SubmitTextAnswer at hrun
    rw [hok] at hrun
    simp only [hst, bne_self_eq_false, Bool.false_eq_true, if_false] at hrun
    set dbq := repoUpdateQuestionAnswer db qid ans now with hdbq
    -- status of the store after the answer write and the recompute
    have hstq : sessionStatus dbq sid = some SessionStatus.waitingForAnswers := by
      rw [hdbq, sessionStatus_updateQuestionAnswer]
      unfold sessionStatus
      rw [hs]
      simp [hst]
    cases hgc : getCurrentIteration dbq sid with
    | mk r2 db2 =>
    rw [hgc] at hrun
    have hdb2 : (getCurrentIteration dbq sid).2 = db2 := by rw [hgc]
    have hq2 : db2.questions = dbq.questions := by
      rw [← hdb2]; exact getCurrentIteration_questions dbq sid
    have hit2 : db2.iterations = dbq.iterations := by
      rw [← hdb2]; exact getCurrentIteration_iterations dbq sid
    have hst2 : sessionStatus db2 sid = some SessionStatus.waitingForAnswers := by
      rw [← hdb2, getCurrentIteration_status]; exact hstq
    cases r2 with
    | error e => exact absurd hrun (by simp)
    | ok v =>
        cases v with
        | some it =>
            dsimp only at hrun
            simp only [Prod.mk.injEq, Except.ok.injEq] at hrun
            obtain ⟨hres, hdb⟩ := hrun
            constructor
            · intro q1 hq1 hid
              rw [← hdb, hq2, hdbq] at hq1
              exact updateQuestionAnswer_marks db qid ans now q1 hq1 hid
            · rw [← hdb]
              constructor
              · intro h
                rw [hst2] at h
                exact absurd h (by simp)
              · intro h
                rw [← hres] at h
                exact absurd h.1 (by simp)
        | none =>
            dsimp only at hrun
            by_cases hemp : (getUnansweredQuestions db2 sid).isEmpty = true
            · rw [if_pos hemp] at hrun
              obtain ⟨u, hu, _⟩ := findSession_of_status hst2
              rw [repoUpdateSessionStatus_of_some hu SessionStatus.validating]
                at hrun
              simp only [Prod.mk.injEq, Except.ok.injEq] at hrun
              obtain ⟨hres, hdb⟩ := hrun
              have huid : u.id = sid := findSession_eq_id hu
              constructor
              · intro q1 hq1 hid
                rw [← hdb] at hq1
                simp only [] at hq1
                rw [hq2, hdbq] at hq1
                exact updateQuestionAnswer_marks db qid ans now q1 hq1 hid
              · constructor
                · intro _
                  refine ⟨hres.symm, ?_⟩
                  have : getUnansweredQuestions db1 sid =
                      getUnansweredQuestions db2 sid := by
                    apply getUnansweredQuestions_congr <;> rw [← hdb]
                  rw [this]
                  exact List.isEmpty_iff.mp hemp
                · intro _
                  rw [← hdb, sessionStatus_mapStatus]
                  rw [hu]
                  simp [huid]
            · rw [if_neg hemp] at hrun
              simp only [Prod.mk.injEq, Except.ok.injEq] at hrun
              obtain ⟨hres, hdb⟩ := hrun
              constructor
              · intro q1 hq1 hid
                rw [← hdb, hq2, hdbq] at hq1
                exact updateQuestionAnswer_marks db qid ans now q1 hq1 hid
              · constructor
                · intro h
                  rw [← hdb, hst2] at h
                  exact absurd h (by simp)
                · intro h
                  rw [← hdb] at h
                  exact absurd (List.isEmpty_iff.mpr h.2) hemp

/-- C2 witness: answering the only open question of `dbOneOpen` marks it
answered and moves the session to `VALIDATING`. -/
theorem submitAnswer_contract_witness :
    (∀ q1 ∈ (SubmitTextAnswer dbOneOpen "s1" "q1" "hi" 7).2.questions,
        q1.id = "q1" →
        q1.status = QuestionStatus.answered ∧ q1.answer = some "hi" ∧
        q1.answeredAt = some 7) ∧
    (sessionStatus (SubmitTextAnswer dbOneOpen "s1" "q1" "hi" 7).2 "s1" =
        some SessionStatus.validating ↔
      ((none : Option IterationWithQuestions) = none ∧
        getUnansweredQuestions
          (SubmitTextAnswer dbOneOpen "s1" "q1" "hi" 7).2 "s1" = [])) :=
  submitAnswer_contract.2 dbOneOpen "s1" "q1" "hi" 7
    (mkSess SessionStatus.waitingForAnswers) none
    (SubmitTextAnswer dbOneOpen "s1" "q1" "hi" 7).2 rfl rfl rfl

/-! ### C3 -/

/-- C3 counterexample: in `dbOneOpen` the session's only question is still
unanswered.  `SkipAnswer` succeeds, and although the freshly skipped
question still counts as unanswered/skipped work, the session is moved to
`VALIDATING` — unlike `submitAnswer`, which checks for remaining
unanswered questions first. -/
theorem skipAnswer_moves_to_validating_with_skipped_left :
    (SkipAnswer dbOneOpen "s1" "q1").1 = .ok none ∧
    sessionStatus (SkipAnswer dbOneOpen "s1" "q1").2 "s1" =
      some SessionStatus.validating ∧
    getUnansweredQuestions (SkipAnswer dbOneOpen "s1" "q1").2 "s1" ≠ [] := by
  refine ⟨rfl, rfl, ?_⟩
  decide

/-- C3 (amended): `skipAnswer` requires `WAITING_FOR_ANSWERS` and mutates
nothing on a mismatch; on success its only question write is the
conditional `SkipQustion` update (`UNANSWERED → SKIPED`; in particular
answered questions are untouched), but — unlike `submitAnswer` — it moves
the session to `VALIDATING` exactly when the recomputed iteration view is
`none`, with no check that unanswered or skipped questions remain
elsewhere in the session. -/
theorem skipAnswer_contract :
    (∀ (db : DB) (sid qid : String) (s : Session),
        findSession db sid = some s →
        s.status ≠ SessionStatus.waitingForAnswers →
        SkipAnswer db sid qid = (.error "wrong action on status", db)) ∧
    (∀ (db : DB) (sid qid : String) (s : Session)
        (res : Option IterationWithQuestions) (db1 : DB),
        findSession db sid = some s →
        s.status = SessionStatus.waitingForAnswers →
        SkipAnswer db sid qid = (.ok res, db1) →
        db1.questions = (repoSkipQuestion db qid).questions ∧
        (∀ q ∈ db.questions, q.status = QuestionStatus.answered →
            q ∈ db1.questions) ∧
        (sessionStatus db1 sid = some SessionStatus.validating ↔ res = none)) := by
  constructor
  · intro db sid qid s hs hst
    have hok : getSessionByID db sid = Except.ok s := by
      unfold getSessionByID; rw [hs]
    unfold SkipAnswer
    rw [hok]
    simp [hst]
  · intro db sid qid s res db1 hs hst hrun
    have hok : getSessionByID db sid = Except.ok s := by
      unfold getSessionByID; rw [hs]
    unfold SkipAnswer at hrun
    rw [hok] at hrun
    simp only [hst, bne_self_eq_false, Bool.false_eq_true, if_false] at hrun
    set dbq := repoSkipQuestion db qid with hdbq
    have hstq : sessionStatus dbq sid = some SessionStatus.waitingForAnswers := by
      rw [hdbq, sessionStatus_skipQuestion]
      unfold sessionStatus
      rw [hs]
      simp [hst]
    cases hgc : getCurrentIteration dbq sid with
    | mk r2 db2 =>
    rw [hgc] at hrun
    have hdb2 : (getCurrentIteration dbq sid).2 = db2 := by rw [hgc]
    have hq2 : db2.questions = dbq.questions := by
      rw [← hdb2]; exact getCurrentIteration_questions dbq sid
    have hst2 : sessionStatus db2 sid = some SessionStatus.waitingForAnswers := by
      rw [← hdb2, getCurrentIteration_status]; exact hstq
    have hansw : ∀ q ∈ db.questions, q.status = QuestionStatus.answered →
        q ∈ dbq.questions := by
      intro q hq hqa
      rw [hdbq]
      unfold repoSkipQuestion
      simp only [List.mem_map]
      refine ⟨q, hq, ?_⟩
      rw [if_neg]
      simp [hqa]
    cases r2 with
    | error e => exact absurd hrun (by simp)
    | ok v =>
        cases v with
        | some it =>
            dsimp only at hrun
            simp only [Prod.mk.injEq, Except.ok.injEq] at hrun
            obtain ⟨hres, hdb⟩ := hrun
            refine ⟨by rw [← hdb, hq2, hdbq], ?_, ?_⟩
            · intro q hq hqa
              rw [← hdb, hq2]
              exact hansw q hq hqa
            · constructor
              · intro h
                rw [← hdb, hst2] at h
                exact absurd h (by simp)
              · intro h
                rw [← hres] at h
                exact absurd h (by simp)
        | none =>
            dsimp only at hrun
            obtain ⟨u, hu, _⟩ := findSession_of_status hst2
            rw [repoUpdateSessionStatus_of_some hu SessionStatus.validating]
              at hrun
            simp only [Prod.mk.injEq, Except.ok.injEq] at hrun
            obtain ⟨hres, hdb⟩ := hrun
            have huid : u.id = sid := findSession_eq_id hu
            refine ⟨?_, ?_, ?_⟩
            · rw [← hdb]
              simp only []
              rw [hq2, hdbq]
            · intro q hq hqa
              rw [← hdb]
              simp only []
              rw [hq2]
              exact hansw q hq hqa
            · constructor
              · intro _
                exact hres.symm
              · intro _
                rw [← hdb, sessionStatus_mapStatus, hu]
                simp [huid]

/-- C3 witness for the amended contract: skipping the open question of
`dbAnswered` leaves the answered question untouched. -/
theorem skipAnswer_contract_witness :
    (SkipAnswer dbAnswered "s1" "q2").2.questions =
      (repoSkipQuestion dbAnswered "q2").questions ∧
    (∀ q ∈ dbAnswered.questions, q.status = QuestionStatus.answered →
        q ∈ (SkipAnswer dbAnswered "s1" "q2").2.questions) ∧
    (sessionStatus (SkipAnswer dbAnswered "s1" "q2").2 "s1" =
        some SessionStatus.validating ↔
      (none : Option IterationWithQuestions) = none) :=
  skipAnswer_contract.2 dbAnswered "s1" "q2"
    (mkSess SessionStatus.waitingForAnswers) none
    (SkipAnswer dbAnswered "s1" "q2").2 rfl rfl rfl

/-! ### C8 -/

/-- C8 counterexample: question `q1` of `dbAnswered` has the stored answer
`"hello"`; submitting the same question again with empty text succeeds and
replaces the stored text with `""` — the previously set answer text is
erased to empty, which the claim rules out. -/
theorem submit_empty_text_erases_answer :
    (findQuestion dbAnswered "q1").map (fun q => q.answer) =
      some (some "hello") ∧
    (SubmitTextAnswer dbAnswered "s1" "q1" "" 5).1.isOk = true ∧
    (findQuestion (SubmitTextAnswer dbAnswered "s1" "q1" "" 5).2 "q1").map
      (fun q => q.answer) = some (some "") :=
  ⟨rfl, rfl, rfl⟩

/-- C8 (amended): per-question status transitions are as claimed —
`UpdateQuestionAnswer` only ever produces `ANSWERED` and `SkipQustion` only
moves `UNANSWERED → SKIPED`, so a question never regresses from `ANSWERED`
and never returns to `UNANSWERED`, skipping never touches answer text, and
an answer is never set back to NULL; but `UpdateQuestionAnswer` overwrites
the stored text with whatever text is submitted, which may be empty. -/
theorem question_status_monotone (db : DB) (qid text : String) (now : Nat) :
    List.Forall₂ (fun q q1 =>
        q1.id = q.id ∧
        (q.status = QuestionStatus.answered →
          q1.status = QuestionStatus.answered) ∧
        (q.status = QuestionStatus.skiped →
          q1.status ≠ QuestionStatus.unanswered) ∧
        (q.answer.isSome = true → q1.answer.isSome = true) ∧
        (q.id = qid → q1.status = QuestionStatus.answered ∧
          q1.answer = some text ∧ q1.answeredAt = some now))
      db.questions (repoUpdateQuestionAnswer db qid text now).questions ∧
    List.Forall₂ (fun q q1 =>
        q1.id = q.id ∧ q1.answer = q.answer ∧
        (q.status = QuestionStatus.answered →
          q1.status = QuestionStatus.answered) ∧
        (q.status = QuestionStatus.skiped →
          q1.status ≠ QuestionStatus.unanswered))
      db.questions (repoSkipQuestion db qid).questions := by
  have hsk : ∀ q1 : Question, q1.status = QuestionStatus.skiped →
      q1.status ≠ QuestionStatus.unanswered := by
    intro q1 h1 h2
    rw [h1] at h2
    exact QuestionStatus.noConfusion h2
  constructor
  · show List.Forall₂ _ db.questions (db.questions.map _)
    rw [List.forall₂_map_right_iff, List.forall₂_same]
    intro q _
    by_cases h0 : (q.id == qid) = true
    · have h0e : q.id = qid := by simpa using h0
      simp [h0, h0e]
    · have h0e : ¬ q.id = qid := by simpa using h0
      simp [h0, h0e]
      exact fun h1 => hsk q h1
  · show List.Forall₂ _ db.questions (db.questions.map _)
    rw [List.forall₂_map_right_iff, List.forall₂_same]
    intro q _
    by_cases h0 : (q.id == qid && q.status == QuestionStatus.unanswered) = true
    · obtain ⟨h0a, h0b⟩ := (Bool.and_eq_true _ _).mp h0
      have h0i : q.id = qid := by simpa using h0a
      have h0u : q.status = QuestionStatus.unanswered := by simpa using h0b
      simp [h0, h0i, h0u]
    · simp [h0]
      exact fun h1 => hsk q h1

/-! ### C10 -/

/-- Well-formedness of the session's iteration pointer: the iteration at
the pointer exists and has questions, and an iteration at pointer + 1, if
present, has questions too.  Exactly the conditions under which the
engine's `getCurrentIteration` cannot fail. -/
def pointerOk (db : DB) (sid : String) : Bool :=
  match findSession db sid with
  | none => false
  | some s =>
      match db.iterations.find? (fun it =>
          it.sessionId == sid && it.iterationNumber == s.currentIteration) with
      | none => false
      | some it =>
          !(listQuestionsByIteration db it.id).isEmpty &&
          (match db.iterations.find? (fun it2 =>
              it2.sessionId == sid &&
              it2.iterationNumber == s.currentIteration + 1) with
           | none => true
           | some it2 => !(listQuestionsByIteration db it2.id).isEmpty)

theorem repoUpdateSessionIteration_of_some {db : DB} {x : String}
    {s : Session} (hs : findSession db x = some s) :
    repoUpdateSessionIteration db x =
      .ok ({ s with currentIteration := s.currentIteration + 1 },
        { db with sessions :=
            db.sessions.map (fun t =>
              if t.id == x then
                { t with currentIteration := t.currentIteration + 1 }
              else t) }) := by
  unfold repoUpdateSessionIteration
  rw [hs]

theorem listQuestionsByIteration_sessions (db : DB) (l : List Session)
    (iid : String) :
    listQuestionsByIteration { db with sessions := l } iid =
      listQuestionsByIteration db iid := rfl

theorem listQuestionsByIteration_mapQuestions (db : DB)
    (f : Question → Question)
    (hit : ∀ q, (f q).iterationId = q.iterationId)
    (hnum : ∀ q, (f q).questionNumber = q.questionNumber) (iid : String) :
    listQuestionsByIteration { db with questions := db.questions.map f } iid =
      (listQuestionsByIteration db iid).map f := by
  unfold listQuestionsByIteration
  show sortLeBy _ ((db.questions.map f).filter _) = _
  rw [filter_map_eqPred f _ (fun q => by simp [hit q])]
  rw [sortLeBy_map f (fun a b => by simp [hnum a, hnum b])]

theorem listQuestionsByIteration_updateAnswer (db : DB) (qid a : String)
    (n : Nat) (iid : String) :
    listQuestionsByIteration (repoUpdateQuestionAnswer db qid a n) iid =
      (listQuestionsByIteration db iid).map (fun q =>
        if q.id == qid then
          { q with answer := some a, status := QuestionStatus.answered,
                   answeredAt := some n } else q) := by
  unfold repoUpdateQuestionAnswer
  exact listQuestionsByIteration_mapQuestions db _
    (fun q => by by_cases hq : (q.id == qid) = true <;> simp [hq])
    (fun q => by by_cases hq : (q.id == qid) = true <;> simp [hq]) iid

theorem isEmpty_map {α β : Type} (f : α → β) (l : List α) :
    (l.map f).isEmpty = l.isEmpty := by
  cases l <;> rfl

theorem pointerOk_updateQuestionAnswer (db : DB) (qid a : String) (n : Nat)
    (sid : String) :
    pointerOk (repoUpdateQuestionAnswer db qid a n) sid = pointerOk db sid := by
  unfold pointerOk
  have hfs : findSession (repoUpdateQuestionAnswer db qid a n) sid =
      findSession db sid := rfl
  have hits : (repoUpdateQuestionAnswer db qid a n).iterations =
      db.iterations := rfl
  rw [hfs, hits]
  simp only [listQuestionsByIteration_updateAnswer, isEmpty_map]

theorem getCurrentIteration_isOk {db : DB} {sid : String}
    (h : pointerOk db sid = true) :
    (getCurrentIteration db sid).1.isOk = true := by
  unfold pointerOk at h
  cases hs : findSession db sid <;> rw [hs] at h
  · exact absurd h (by simp)
  case some s =>
  dsimp only at h
  cases hcur : db.iterations.find? (fun it =>
      it.sessionId == sid && it.iterationNumber == s.currentIteration) <;>
    rw [hcur] at h
  · exact absurd h (by simp)
  case some cur =>
  dsimp only at h
  rw [Bool.and_eq_true] at h
  obtain ⟨h1, h2⟩ := h
  rw [Bool.not_eq_true'] at h1
  have hrc : repoGetCurrentIteration db sid = .ok cur := by
    unfold repoGetCurrentIteration
    rw [hs]
    simp only [hcur]
  unfold getCurrentIteration
  rw [hrc]
  dsimp only
  simp only [h1, Bool.false_eq_true, if_false]
  by_cases hlu : (match (listQuestionsByIteration db cur.id).getLast? with
      | some q => q.status == QuestionStatus.unanswered
      | none => false) = true
  · simp only [hlu, if_true]
    rfl
  · simp only [hlu, if_false]
    cases hnext : db.iterations.find? (fun it2 =>
        it2.sessionId == sid &&
        it2.iterationNumber == s.currentIteration + 1) <;> rw [hnext] at h2
    · have hgn : repoGetNextIteration db sid =
          .error "get next unanswered iteration: no rows" := by
        unfold repoGetNextIteration
        rw [hs]
        simp only [hnext]
      rw [hgn]
      rfl
    · rename_i it2
      have hgn : repoGetNextIteration db sid = .ok it2 := by
        unfold repoGetNextIteration
        rw [hs]
        simp only [hnext]
      rw [hgn, repoUpdateSessionIteration_of_some hs]
      dsimp only
      rw [Bool.not_eq_true'] at h2
      simp only [listQuestionsByIteration_sessions, h2, Bool.false_eq_true,
        if_false]
      rfl

/-- C10: while the session is `WAITING_FOR_ANSWERS`, submitting an answer
for a question that is already `ANSWERED` succeeds (given a well-formed
iteration pointer) and silently replaces the stored answer text and
answered-at timestamp with the new values; the status stays `ANSWERED`.
Neither the engine nor `UpdateQuestionAnswer` checks the question's
current status before writing. -/
theorem resubmit_overwrites_answer :
    ∀ (db : DB) (sid qid text : String) (now : Nat) (s : Session)
      (q : Question),
      findSession db sid = some s →
      s.status = SessionStatus.waitingForAnswers →
      findQuestion db qid = some q →
      q.status = QuestionStatus.answered →
      pointerOk db sid = true →
      (SubmitTextAnswer db sid qid text now).1.isOk = true ∧
      (∀ q1 ∈ (SubmitTextAnswer db sid qid text now).2.questions,
          q1.id = qid → q1.status = QuestionStatus.answered ∧
          q1.answer = some text ∧ q1.answeredAt = some now) := by
  intro db sid qid text now s q hs hst hq hqa hptr
  have hok : getSessionByID db sid = Except.ok s := by
    unfold getSessionByID; rw [hs]
  unfold SubmitTextAnswer
  rw [hok]
  simp only [hst, bne_self_eq_false, Bool.false_eq_true, if_false]
  set dbq := repoUpdateQuestionAnswer db qid text now with hdbq
  have hptr2 : pointerOk dbq sid = true := by
    rw [hdbq, pointerOk_updateQuestionAnswer]; exact hptr
  have hgok := getCurrentIteration_isOk hptr2
  have hstq : sessionStatus dbq sid = some SessionStatus.waitingForAnswers := by
    rw [hdbq, sessionStatus_updateQuestionAnswer]
    unfold sessionStatus
    rw [hs]
    simp [hst]
  cases hgc : getCurrentIteration dbq sid with
  | mk r2 db2 =>
  have hdb2 : (getCurrentIteration dbq sid).2 = db2 := by rw [hgc]
  have hq2 : db2.questions = dbq.questions := by
    rw [← hdb2]; exact getCurrentIteration_questions dbq sid
  have hst2 : sessionStatus db2 sid = some SessionStatus.waitingForAnswers := by
    rw [← hdb2, getCurrentIteration_status]; exact hstq
  cases r2 with
  | error e =>
      rw [hgc] at hgok
      exact absurd hgok (by simp [Except.isOk, Except.toBool])
  | ok v =>
      cases v with
      | some it =>
          dsimp only
          refine ⟨rfl, ?_⟩
          intro q1 hq1 hid
          rw [hq2, hdbq] at hq1
          exact updateQuestionAnswer_marks db qid text now q1 hq1 hid
      | none =>
          dsimp only
          by_cases hemp : (getUnansweredQuestions db2 sid).isEmpty = true
          · rw [if_pos hemp]
            obtain ⟨u, hu, _⟩ := findSession_of_status hst2
            rw [repoUpdateSessionStatus_of_some hu SessionStatus.validating]
            dsimp only
            refine ⟨rfl, ?_⟩
            intro q1 hq1 hid
            rw [hq2, hdbq] at hq1
            exact updateQuestionAnswer_marks db qid text now q1 hq1 hid
          · rw [if_neg hemp]
            refine ⟨rfl, ?_⟩
            intro q1 hq1 hid
            rw [hq2, hdbq] at hq1
            exact updateQuestionAnswer_marks db qid text now q1 hq1 hid

/-- C10 witness: re-answering the already answered `q1` of `dbAnswered`
replaces `"hello"`/timestamp 1 by `"new"`/timestamp 9. -/
theorem resubmit_overwrites_answer_witness :
    (SubmitTextAnswer dbAnswered "s1" "q1" "new" 9).1.isOk = true ∧
    (∀ q1 ∈ (SubmitTextAnswer dbAnswered "s1" "q1" "new" 9).2.questions,
        q1.id = "q1" → q1.status = QuestionStatus.answered ∧
        q1.answer = some "new" ∧ q1.answeredAt = some 9) :=
  resubmit_overwrites_answer dbAnswered "s1" "q1" "new" 9
    (mkSess SessionStatus.waitingForAnswers)
    { mkQ "q1" 1 QuestionStatus.answered with
      answer := some "hello", answeredAt := some 1 }
    rfl rfl rfl rfl (by decide)

/-! ### C6 -/

/-- C6 counterexample: the stored status of `dbCanceled`'s session is the
terminal `CANCELED`, yet the code's `UpdateSessionStatus` write to
`WAITING_FOR_ANSWERS` succeeds and commits — the write carries no status
condition.  The spec's conditional form (`updateSessionStatusCAS`) would
succeed for no guard status other than the degenerate guard `CANCELED`
itself, which is in no operation's requirement set. -/
theorem updateStatus_write_is_unconditional :
    sessionStatus dbCanceled "s1" = some SessionStatus.canceled ∧
    (repoUpdateSessionStatus dbCanceled "s1"
        SessionStatus.waitingForAnswers).isOk = true ∧
    (match repoUpdateSessionStatus dbCanceled "s1"
        SessionStatus.waitingForAnswers with
     | .ok p => sessionStatus p.2 "s1"
     | .error _ => none) = some SessionStatus.waitingForAnswers ∧
    (allStatuses.all (fun g =>
        !(updateSessionStatusCAS dbCanceled "s1" g
            SessionStatus.waitingForAnswers).isOk ||
        (g == SessionStatus.canceled))) = true := by
  refine ⟨rfl, rfl, rfl, ?_⟩
  decide

/-- C6 (amended): the storage-layer status write is a single *unconditional*
update keyed by id (`UPDATE sessions SET status = $2 WHERE id = $1`): it
affects zero rows only when the session id does not exist, and that case
surfaces as an error; when the row exists the write succeeds and commits
the new status whatever the stored status was. -/
theorem updateSessionStatus_unconditional :
    ∀ (db : DB) (id : String) (st : SessionStatus),
      ((findSession db id).isSome = false →
        repoUpdateSessionStatus db id st =
          .error "update session status: no rows") ∧
      (∀ s, findSession db id = some s →
        ∃ s1 db1, repoUpdateSessionStatus db id st = .ok (s1, db1) ∧
          s1.status = st ∧ sessionStatus db1 id = some st ∧
          db1.iterations = db.iterations ∧ db1.questions = db.questions) := by
  intro db id st
  constructor
  · intro h
    unfold repoUpdateSessionStatus
    cases hf : findSession db id
    · rfl
    · rw [hf] at h
      exact absurd h (by simp)
  · intro s hs
    refine ⟨_, _, repoUpdateSessionStatus_of_some hs st, rfl, ?_, rfl, rfl⟩
    rw [sessionStatus_mapStatus, hs]
    simp [findSession_eq_id hs]

/-- C6 witness: updating the canceled session's status to
`WAITING_FOR_ANSWERS` succeeds with the new status committed. -/
theorem updateSessionStatus_unconditional_witness :
    ∃ s1 db1, repoUpdateSessionStatus dbCanceled "s1"
        SessionStatus.waitingForAnswers = .ok (s1, db1) ∧
      s1.status = SessionStatus.waitingForAnswers ∧
      sessionStatus db1 "s1" = some SessionStatus.waitingForAnswers ∧
      db1.iterations = dbCanceled.iterations ∧
      db1.questions = dbCanceled.questions :=
  (updateSessionStatus_unconditional dbCanceled "s1"
    SessionStatus.waitingForAnswers).2
    { id := "s1", status := SessionStatus.canceled } rfl

/-! ### C9 -/

/-- C9 counterexample: with the pending token `"finish"`, the confirm
callback carrying the *different* value `"cancel"` still performs the
destructive action — the user state row is deleted and the engine session
is canceled.  The code checks only that the stored token is `"cancel"` or
`"finish"`, never that it matches the callback value. -/
theorem confirm_value_mismatch_still_acts :
    (envPendingFinish.tg.map (fun t => t.pendingConfirmation)) =
      some "finish" ∧
    (handleConfirmation envPendingFinish "cancel").acted = true ∧
    (handleConfirmation envPendingFinish "cancel").env.tg = none ∧
    sessionStatus (handleConfirmation envPendingFinish "cancel").env.db "s1" =
      some SessionStatus.canceled :=
  ⟨rfl, rfl, rfl, rfl⟩

/-- C9 (amended): the two-step shape holds — the first `finish` invocation
only records the pending token and acts on nothing, and the `continue`
button clears the token without acting — but the confirm callback performs
the destructive action whenever its value is `"cancel"` or `"finish"` *and*
the stored token is `"cancel"` or `"finish"`, with no requirement that the
two match. -/
theorem confirmation_flow_contract :
    (∀ (env : ChatEnv) (t : TgSession), env.tg = some t →
        t.pendingConfirmation ≠ "finish" →
        (handleFinish env).acted = false ∧
        (handleFinish env).env =
          { env with tg := some { t with pendingConfirmation := "finish" } }) ∧
    (∀ (env : ChatEnv) (value : String),
        (handleConfirmation env value).acted = true ↔
        ∃ t, env.tg = some t ∧
          (value = "cancel" ∨ value = "finish") ∧
          (t.pendingConfirmation = "cancel" ∨
            t.pendingConfirmation = "finish")) ∧
    (∀ (env : ChatEnv) (t : TgSession), env.tg = some t →
        (handleConfirmation env "continue").acted = false ∧
        (handleConfirmation env "continue").env =
          { env with tg := some { t with pendingConfirmation := "" } }) := by
  refine ⟨?_, ?_, ?_⟩
  · intro env t ht hpend
    unfold handleFinish
    rw [ht]
    simp [hpend]
  · intro env value
    unfold handleConfirmation
    cases ht : env.tg with
    | none => simp
    | some t =>
        dsimp only
        by_cases hv : (value == "cancel" || value == "finish") = true
        · rw [if_pos hv]
          by_cases hp : (t.pendingConfirmation == "cancel" ||
              t.pendingConfirmation == "finish") = true
          · rw [if_pos hp]
            simp only [Bool.or_eq_true, beq_iff_eq] at hv hp
            simp [hv, hp]
          · rw [if_neg hp]
            simp only [Bool.or_eq_true, beq_iff_eq] at hp
            push_neg at hp
            simp [hp]
        · rw [if_neg hv]
          simp only [Bool.or_eq_true, beq_iff_eq] at hv
          push_neg at hv
          by_cases hc : (value == "continue") = true
          · rw [if_pos hc]
            simp [hv]
          · rw [if_neg hc]
            simp [hv]
  · intro env t ht
    unfold handleConfirmation
    rw [ht]
    simp

/-- A chat state with no pending confirmation token. -/
def tgNoPending : TgSession :=
  { userId := 1, sessionId := "s1", pendingConfirmation := "" }

/-- The chat environment of `tgNoPending` over `dbOneOpen`. -/
def envNoPending : ChatEnv :=
  { tg := some tgNoPending, db := dbOneOpen }

/-- C9 witness: with no pending token, the first `finish` invocation only
records the token. -/
theorem confirmation_flow_contract_witness :
    (handleFinish envNoPending).acted = false ∧
    (handleFinish envNoPending).env =
      { envNoPending with
          tg := some { tgNoPending with pendingConfirmation := "finish" } } :=
  confirmation_flow_contract.1 envNoPending tgNoPending rfl (by decide)

/-! ### Lemmas about `saveQuestionsToDatabase` -/

/-- The iteration numbers stored for a session, in row order. -/
def sessionIterNumbers (db : DB) (sid : String) : List Int :=
  (db.iterations.filter (fun it => it.sessionId == sid)).map
    (fun it => it.iterationNumber)

theorem createBlockQuestions_comp (iid : String) (mk1 : Nat → String) :
    ∀ (gs : List GenQuestion) (db : DB) (k : Nat),
      (createBlockQuestions iid mk1 db gs k).2.questions =
        db.questions ++ (createBlockQuestions iid mk1 db gs k).1 ∧
      (createBlockQuestions iid mk1 db gs k).2.sessions = db.sessions ∧
      (createBlockQuestions iid mk1 db gs k).2.iterations = db.iterations ∧
      (createBlockQuestions iid mk1 db gs k).2.messages = db.messages ∧
      (createBlockQuestions iid mk1 db gs k).2.projects = db.projects := by
  intro gs
  induction gs with
  | nil =>
      intro db k
      refine ⟨?_, rfl, rfl, rfl, rfl⟩
      simp [createBlockQuestions]
  | cons g gs ih =>
      intro db k
      simp only [createBlockQuestions]
      refine ⟨?_, (ih _ _).2.1, (ih _ _).2.2.1, (ih _ _).2.2.2.1,
        (ih _ _).2.2.2.2⟩
      rw [(ih _ _).1]
      simp

theorem sessionIterNumbers_lt_next (db : DB) (sid : String) :
    ∀ n ∈ sessionIterNumbers db sid, n < repoGetMaxIterationNumber db sid + 1 := by
  intro n hn
  unfold sessionIterNumbers at hn
  have hle := (le_foldl_max ((db.iterations.filter
    (fun it => it.sessionId == sid)).map (fun it => it.iterationNumber)) 0).2 n hn
  unfold repoGetMaxIterationNumber
  omega

theorem repoCreateIteration_no_conflict {db : DB} {sid : String}
    (it : Iteration) (hsid : it.sessionId = sid)
    (hgt : ∀ n ∈ sessionIterNumbers db sid, n < it.iterationNumber) :
    repoCreateIteration db it =
      .ok (it, { db with iterations := db.iterations ++ [it] }) := by
  unfold repoCreateIteration
  rw [if_neg]
  intro hany
  rw [List.any_eq_true] at hany
  obtain ⟨o, ho, hcond⟩ := hany
  rw [Bool.and_eq_true] at hcond
  have h1 : o.sessionId = sid := by
    have h := hcond.1
    rw [hsid] at h
    simpa using h
  have h2 : o.iterationNumber = it.iterationNumber := by simpa using hcond.2
  have hmem : o.iterationNumber ∈ sessionIterNumbers db sid := by
    unfold sessionIterNumbers
    apply List.mem_map_of_mem
    rw [List.mem_filter]
    exact ⟨ho, by simp [h1]⟩
  have := hgt _ hmem
  omega

theorem saveQuestions_singleton (db : DB) (sid : String) (b : QuestionsBlock)
    (mkI : Nat → String) (mkQ : Nat → Nat → String) :
    ∃ dto db2,
      saveQuestionsToDatabase db sid [b] mkI mkQ = (.ok [dto], db2) ∧
      db2.iterations = db.iterations ++
        [{ id := mkI 0, sessionId := sid,
           iterationNumber := repoGetMaxIterationNumber db sid + 1,
           title := b.title }] ∧
      db2.sessions = db.sessions ∧
      db2.messages = db.messages ∧
      db2.projects = db.projects ∧
      dto.title = b.title := by
  unfold saveQuestionsToDatabase saveBlocksAux
  simp only [Nat.cast_zero, add_zero]
  rw [repoCreateIteration_no_conflict
    ({ id := mkI 0, sessionId := sid,
       iterationNumber := repoGetMaxIterationNumber db sid + 1,
       title := b.title }) rfl (sessionIterNumbers_lt_next db sid)]
  dsimp only
  refine ⟨_, _, rfl, ?_, ?_, ?_, ?_, rfl⟩
  · rw [(createBlockQuestions_comp _ _ _ _ _).2.2.1]
  · rw [(createBlockQuestions_comp _ _ _ _ _).2.1]
  · rw [(createBlockQuestions_comp _ _ _ _ _).2.2.2.1]
  · rw [(createBlockQuestions_comp _ _ _ _ _).2.2.2.2]

/-! ### C4 -/

/-- How many iterations titled "additional questions" the session has. -/
def additionalCount (db : DB) (sid : String) : Nat :=
  (db.iterations.filter (fun it =>
    it.sessionId == sid && it.title == additionalTitle)).length

theorem hasAdditionalBlock_iff_count (db : DB) (sid : String) :
    hasAdditionalBlock db sid = true ↔ additionalCount db sid ≠ 0 := by
  unfold hasAdditionalBlock additionalCount listIterationsBySession
  rw [List.any_eq_true]
  constructor
  · rintro ⟨it, hmem, htitle⟩
    rw [mem_sortLeBy, List.mem_filter] at hmem
    intro hlen
    rw [List.length_eq_zero] at hlen
    have hin : it ∈ db.iterations.filter (fun o =>
        o.sessionId == sid && o.title == additionalTitle) := by
      rw [List.mem_filter]
      refine ⟨hmem.1, ?_⟩
      rw [Bool.and_eq_true]
      exact ⟨hmem.2, htitle⟩
    rw [hlen] at hin
    exact absurd hin (List.not_mem_nil it)
  · intro hlen
    have hne : db.iterations.filter (fun o =>
        o.sessionId == sid && o.title == additionalTitle) ≠ [] := by
      intro hnil
      rw [← List.length_eq_zero] at hnil
      exact hlen hnil
    obtain ⟨it, hit⟩ := List.exists_mem_of_ne_nil _ hne
    rw [List.mem_filter, Bool.and_eq_true] at hit
    refine ⟨it, ?_, hit.2.2⟩
    rw [mem_sortLeBy, List.mem_filter]
    exact ⟨hit.1, hit.2.1⟩

theorem additionalCount_append (db : DB) (sid : String)
    (its : List Iteration) :
    additionalCount { db with iterations := db.iterations ++ its } sid =
      additionalCount db sid + (its.filter (fun it =>
        it.sessionId == sid && it.title == additionalTitle)).length := by
  unfold additionalCount
  simp [List.filter_append]

theorem findSession_some_of_getOk {db : DB} {sid : String} {s : Session}
    (hok : getSessionByID db sid = Except.ok s) :
    findSession db sid = some s := by
  unfold getSessionByID at hok
  cases hf : findSession db sid <;> rw [hf] at hok
  · exact absurd hok (by simp)
  case some u =>
    have h2 : u = s := by simpa using hok
    rw [h2]

/-- `ValidateAnswers` never raises the number of "additional questions"
iterations above one: if such an iteration already exists it does not
create another (it short-circuits before the gateway call), and otherwise
it creates at most the one. -/
theorem validateAnswers_count_le_one
    (db : DB) (sid : String)
    (llm : List (String × String) → Except String (List GenQuestion))
    (mkI : Nat → String) (mkQ : Nat → Nat → String)
    (h : additionalCount db sid ≤ 1) :
    additionalCount (ValidateAnswers db sid llm mkI mkQ).2 sid ≤ 1 := by
  unfold ValidateAnswers
  cases hok : getSessionByID db sid with
  | error e => exact h
  | ok s =>
      dsimp only
      by_cases hg : (s.status != SessionStatus.validating &&
          s.status != SessionStatus.waitingForAnswers) = true
      · rw [if_pos hg]; exact h
      · rw [if_neg hg]
        by_cases hug : (s.userGoal.getD "" == "") = true
        · rw [if_pos hug]; exact h
        · rw [if_neg hug]
          by_cases hpc : (s.projectContext.getD "" == "") = true
          · rw [if_pos hpc]; exact h
          · rw [if_neg hpc]
            by_cases hadd : hasAdditionalBlock db sid = true
            · rw [if_pos hadd]
              have hu := findSession_some_of_getOk hok
              rw [repoUpdateSessionStatus_of_some hu _]
              exact h
            · rw [if_neg hadd]
              have hc0 : additionalCount db sid = 0 := by
                by_contra hne
                exact hadd ((hasAdditionalBlock_iff_count db sid).mpr hne)
              cases hllm : llm (collectAllAnswers db sid) with
              | error e => exact h
              | ok genQs =>
                  dsimp only
                  by_cases hemp : genQs.isEmpty = true
                  · rw [if_pos hemp]
                    have hu := findSession_some_of_getOk hok
                    rw [repoUpdateSessionStatus_of_some hu _]
                    exact h
                  · rw [if_neg hemp]
                    obtain ⟨dto, db2, hsave, hit2, hses2, _, _, _⟩ :=
                      saveQuestions_singleton db sid
                        { title := additionalTitle, questions := genQs } mkI mkQ
                    rw [hsave]
                    dsimp only
                    have hcount2 : additionalCount db2 sid = 1 := by
                      calc additionalCount db2 sid
                          = additionalCount { db with iterations :=
                              db.iterations ++
                              [{ id := mkI 0, sessionId := sid,
                                 iterationNumber :=
                                   repoGetMaxIterationNumber db sid + 1,
                                 title := additionalTitle }] } sid := by
                            unfold additionalCount
                            rw [hit2]
                        _ = 1 := by
                            rw [additionalCount_append, hc0]
                            simp [additionalTitle]
                    have hu2 : findSession db2 sid = some s := by
                      have hu := findSession_some_of_getOk hok
                      unfold findSession at hu ⊢
                      rw [hses2]
                      exact hu
                    rw [repoUpdateSessionStatus_of_some hu2 _]
                    exact le_of_eq hcount2

/-- `ValidateDraftMessages` never raises the number of "additional
questions" iterations above one either. -/
theorem validateDraft_count_le_one
    (db : DB) (sid : String)
    (llm : List String → List (String × String) →
      Except String (List GenQuestion))
    (mkI : Nat → String) (mkQ : Nat → Nat → String)
    (h : additionalCount db sid ≤ 1) :
    additionalCount (ValidateDraftMessages db sid llm mkI mkQ).2 sid ≤ 1 := by
  unfold ValidateDraftMessages
  cases hok : getSessionByID db sid with
  | error e => exact h
  | ok s =>
      dsimp only
      by_cases hg : (s.status != SessionStatus.draftCollecting &&
          s.status != SessionStatus.waitingForAnswers &&
          s.status != SessionStatus.validating) = true
      · rw [if_pos hg]; exact h
      · rw [if_neg hg]
        by_cases hug : (s.userGoal.getD "" == "") = true
        · rw [if_pos hug]; exact h
        · rw [if_neg hug]
          by_cases hpc : (s.projectContext.getD "" == "") = true
          · rw [if_pos hpc]; exact h
          · rw [if_neg hpc]
            have hu := findSession_some_of_getOk hok
            by_cases hadd : hasAdditionalBlock db sid = true
            · rw [if_pos hadd]
              rw [repoUpdateSessionStatus_of_some hu _]
              exact h
            · rw [if_neg hadd]
              have hc0 : additionalCount db sid = 0 := by
                by_contra hne
                exact hadd ((hasAdditionalBlock_iff_count db sid).mpr hne)
              rw [repoUpdateSessionStatus_of_some2 hu SessionStatus.validating]
              dsimp only
              set db1 : DB := setStatusDB db sid SessionStatus.validating
                with hdb1
              have hc1 : additionalCount db1 sid = 0 := hc0
              have hle1 : additionalCount db1 sid ≤ 1 := by
                rw [hc1]
                omega
              have hu1 : findSession db1 sid =
                  some { s with status := SessionStatus.validating } := by
                rw [hdb1]
                unfold setStatusDB
                rw [findSession_mapIf db sid
                  (fun t => { t with status := SessionStatus.validating })
                  (fun _ => rfl) sid]
                rw [hu]
                have hsid : s.id = sid := findSession_eq_id hu
                simp [hsid]
              by_cases hm : (getSessionMessages db1 sid).isEmpty = true
              · rw [if_pos hm]; exact hle1
              · rw [if_neg hm]
                cases hpid : s.projectId with
                | none =>
                    dsimp only
                    cases hllm : llm ((getSessionMessages db1 sid).map
                        (fun m => m.messageText))
                        ((listQuestionsBySession db1 sid).filterMap
                          (fun q => q.answer.map (fun a => (q.question, a)))) with
                    | error e => exact hle1
                    | ok genQs =>
                        dsimp only
                        by_cases hemp : genQs.isEmpty = true
                        · rw [if_pos hemp]
                          rw [repoUpdateSessionStatus_of_some hu1 _]
                          exact hle1
                        · rw [if_neg hemp]
                          obtain ⟨dto, db2, hsave, hit2, hses2, _, _, _⟩ :=
                            saveQuestions_singleton db1 sid
                              { title := additionalTitle, questions := genQs }
                              mkI mkQ
                          rw [hsave]
                          dsimp only
                          have hcount2 : additionalCount db2 sid = 1 := by
                            calc additionalCount db2 sid
                                = additionalCount { db1 with iterations :=
                                    db1.iterations ++
                                    [{ id := mkI 0, sessionId := sid,
                                       iterationNumber :=
                                         repoGetMaxIterationNumber db1 sid + 1,
                                       title := additionalTitle }] } sid := by
                                  unfold additionalCount
                                  rw [hit2]
                              _ = 1 := by
                                  rw [additionalCount_append, hc1]
                                  simp [additionalTitle]
                          have hu2 : findSession db2 sid =
                              some { s with status := SessionStatus.validating } := by
                            unfold findSession at hu1 ⊢
                            rw [hses2]
                            exact hu1
                          rw [repoUpdateSessionStatus_of_some hu2 _]
                          exact le_of_eq hcount2
                | some pid =>
                    dsimp only
                    by_cases hpe : (pid != "") = true
                    · rw [if_pos hpe]
                      cases hproj : findProject db1 pid with
                      | none => exact hle1
                      | some p =>
                          dsimp only
                          cases hllm : llm ((getSessionMessages db1 sid).map
                              (fun m => m.messageText))
                              ((listQuestionsBySession db1 sid).filterMap
                                (fun q => q.answer.map
                                  (fun a => (q.question, a)))) with
                          | error e => exact hle1
                          | ok genQs =>
                              dsimp only
                              by_cases hemp : genQs.isEmpty = true
                              · rw [if_pos hemp]
                                rw [repoUpdateSessionStatus_of_some hu1 _]
                                exact hle1
                              · rw [if_neg hemp]
                                obtain ⟨dto, db2, hsave, hit2, hses2, _, _, _⟩ :=
                                  saveQuestions_singleton db1 sid
                                    { title := additionalTitle,
                                      questions := genQs } mkI mkQ
                                rw [hsave]
                                dsimp only
                                have hcount2 : additionalCount db2 sid = 1 := by
                                  calc additionalCount db2 sid
                                      = additionalCount { db1 with iterations :=
                                          db1.iterations ++
                                          [{ id := mkI 0, sessionId := sid,
                                             iterationNumber :=
                                               repoGetMaxIterationNumber db1 sid + 1,
                                             title := additionalTitle }] } sid := by
                                        unfold additionalCount
                                        rw [hit2]
                                    _ = 1 := by
                                        rw [additionalCount_append, hc1]
                                        simp [additionalTitle]
                                have hu2 : findSession db2 sid =
                                    some { s with
                                      status := SessionStatus.validating } := by
                                  unfold findSession at hu1 ⊢
                                  rw [hses2]
                                  exact hu1
                                rw [repoUpdateSessionStatus_of_some hu2 _]
                                exact le_of_eq hcount2
                    · rw [if_neg hpe]
                      dsimp only
                      cases hllm : llm ((getSessionMessages db1 sid).map
                          (fun m => m.messageText))
                          ((listQuestionsBySession db1 sid).filterMap
                            (fun q => q.answer.map (fun a => (q.question, a)))) with
                      | error e => exact hle1
                      | ok genQs =>
                          dsimp only
                          by_cases hemp : genQs.isEmpty = true
                          · rw [if_pos hemp]
                            rw [repoUpdateSessionStatus_of_some hu1 _]
                            exact hle1
                          · rw [if_neg hemp]
                            obtain ⟨dto, db2, hsave, hit2, hses2, _, _, _⟩ :=
                              saveQuestions_singleton db1 sid
                                { title := additionalTitle,
                                  questions := genQs } mkI mkQ
                            rw [hsave]
                            dsimp only
                            have hcount2 : additionalCount db2 sid = 1 := by
                              calc additionalCount db2 sid
                                  = additionalCount { db1 with iterations :=
                                      db1.iterations ++
                                      [{ id := mkI 0, sessionId := sid,
                                         iterationNumber :=
                                           repoGetMaxIterationNumber db1 sid + 1,
                                         title := additionalTitle }] } sid := by
                                    unfold additionalCount
                                    rw [hit2]
                                _ = 1 := by
                                    rw [additionalCount_append, hc1]
                                    simp [additionalTitle]
                            have hu2 : findSession db2 sid =
                                some { s with
                                  status := SessionStatus.validating } := by
                              unfold findSession at hu1 ⊢
                              rw [hses2]
                              exact hu1
                            rw [repoUpdateSessionStatus_of_some hu2 _]
                            exact le_of_eq hcount2

/-- C4: the "additional questions" refinement round runs at most once per
session.  Starting from a session with no iteration titled "additional
questions", calling `validateAnswers` twice (or `validateDraftMessages`
twice), with arbitrary Reasoning Gateway responses each time, never leaves
two iterations with that title; and once the block exists, `validateAnswers`
short-circuits — its outcome does not depend on the gateway response at
all and it creates no iteration. -/
theorem additional_round_at_most_once :
    (∀ (db : DB) (sid : String)
        (llmA llmB : List (String × String) → Except String (List GenQuestion))
        (mkI1 mkI2 : Nat → String) (mkQ1 mkQ2 : Nat → Nat → String),
        additionalCount db sid = 0 →
        additionalCount (ValidateAnswers
          (ValidateAnswers db sid llmA mkI1 mkQ1).2 sid llmB mkI2 mkQ2).2
          sid ≤ 1) ∧
    (∀ (db : DB) (sid : String)
        (llmA llmB : List String → List (String × String) →
          Except String (List GenQuestion))
        (mkI1 mkI2 : Nat → String) (mkQ1 mkQ2 : Nat → Nat → String),
        additionalCount db sid = 0 →
        additionalCount (ValidateDraftMessages
          (ValidateDraftMessages db sid llmA mkI1 mkQ1).2 sid llmB mkI2 mkQ2).2
          sid ≤ 1) ∧
    (∀ (db : DB) (sid : String)
        (llm1 llm2 : List (String × String) → Except String (List GenQuestion))
        (mkI : Nat → String) (mkQ : Nat → Nat → String),
        hasAdditionalBlock db sid = true →
        ValidateAnswers db sid llm1 mkI mkQ =
          ValidateAnswers db sid llm2 mkI mkQ ∧
        (ValidateAnswers db sid llm1 mkI mkQ).2.iterations = db.iterations) := by
  refine ⟨?_, ?_, ?_⟩
  · intro db sid llmA llmB mkI1 mkI2 mkQ1 mkQ2 h0
    exact validateAnswers_count_le_one _ _ _ _ _
      (validateAnswers_count_le_one _ _ _ _ _
        (le_trans (le_of_eq h0) (Nat.zero_le 1)))
  · intro db sid llmA llmB mkI1 mkI2 mkQ1 mkQ2 h0
    exact validateDraft_count_le_one _ _ _ _ _
      (validateDraft_count_le_one _ _ _ _ _
        (le_trans (le_of_eq h0) (Nat.zero_le 1)))
  · intro db sid llm1 llm2 mkI mkQ hadd
    unfold ValidateAnswers
    cases hok : getSessionByID db sid with
    | error e => exact ⟨rfl, rfl⟩
    | ok s =>
        dsimp only
        by_cases hg : (s.status != SessionStatus.validating &&
            s.status != SessionStatus.waitingForAnswers) = true
        · rw [if_pos hg, if_pos hg]; exact ⟨rfl, rfl⟩
        · rw [if_neg hg, if_neg hg]
          by_cases hug : (s.userGoal.getD "" == "") = true
          · rw [if_pos hug, if_pos hug]; exact ⟨rfl, rfl⟩
          · rw [if_neg hug, if_neg hug]
            by_cases hpc : (s.projectContext.getD "" == "") = true
            · rw [if_pos hpc, if_pos hpc]; exact ⟨rfl, rfl⟩
            · rw [if_neg hpc, if_neg hpc]
              rw [if_pos hadd, if_pos hadd]
              refine ⟨rfl, ?_⟩
              have hu := findSession_some_of_getOk hok
              rw [repoUpdateSessionStatus_of_some2 hu _]
              rfl

/-- C4 witness: from `dbValidating` (no "additional questions" block),
running `ValidateAnswers` twice with a gateway that keeps producing an
extra question leaves at most one block titled "additional questions". -/
theorem additional_round_at_most_once_witness :
    additionalCount (ValidateAnswers
      (ValidateAnswers dbValidating "s1"
        (fun _ => .ok [{ text := "extra", explanation := "ex" }])
        mkIterIdW mkQIdW).2 "s1"
      (fun _ => .ok [{ text := "more", explanation := "mo" }])
      mkIterIdW mkQIdW).2 "s1" ≤ 1 :=
  additional_round_at_most_once.1 dbValidating "s1"
    (fun _ => .ok [{ text := "extra", explanation := "ex" }])
    (fun _ => .ok [{ text := "more", explanation := "mo" }])
    mkIterIdW mkIterIdW mkQIdW mkQIdW rfl

/-! ### C5 -/

theorem sessionStatus_setStatusDB {db : DB} {x : String} {s : Session}
    (hs : findSession db x = some s) (st : SessionStatus) :
    sessionStatus (setStatusDB db x st) x = some st := by
  unfold setStatusDB
  rw [sessionStatus_mapStatus, hs]
  simp [findSession_eq_id hs]

/-- `ValidateAnswers` either succeeds or leaves the store untouched. -/
theorem validateAnswers_outcome
    (db : DB) (sid : String)
    (llm : List (String × String) → Except String (List GenQuestion))
    (mkI : Nat → String) (mkQ : Nat → Nat → String) :
    (∃ v, (ValidateAnswers db sid llm mkI mkQ).1 = Except.ok v) ∨
    (ValidateAnswers db sid llm mkI mkQ).2 = db := by
  unfold ValidateAnswers
  cases hok : getSessionByID db sid with
  | error e => exact Or.inr rfl
  | ok s =>
      dsimp only
      by_cases hg : (s.status != SessionStatus.validating &&
          s.status != SessionStatus.waitingForAnswers) = true
      · rw [if_pos hg]; exact Or.inr rfl
      · rw [if_neg hg]
        by_cases hug : (s.userGoal.getD "" == "") = true
        · rw [if_pos hug]; exact Or.inr rfl
        · rw [if_neg hug]
          by_cases hpc : (s.projectContext.getD "" == "") = true
          · rw [if_pos hpc]; exact Or.inr rfl
          · rw [if_neg hpc]
            have hu := findSession_some_of_getOk hok
            by_cases hadd : hasAdditionalBlock db sid = true
            · rw [if_pos hadd]
              rw [repoUpdateSessionStatus_of_some2 hu _]
              exact Or.inl ⟨none, rfl⟩
            · rw [if_neg hadd]
              cases hllm : llm (collectAllAnswers db sid) with
              | error e => exact Or.inr rfl
              | ok genQs =>
                  dsimp only
                  by_cases hemp : genQs.isEmpty = true
                  · rw [if_pos hemp]
                    rw [repoUpdateSessionStatus_of_some2 hu _]
                    exact Or.inl ⟨none, rfl⟩
                  · rw [if_neg hemp]
                    obtain ⟨dto, db2, hsave, _, hses2, _, _, _⟩ :=
                      saveQuestions_singleton db sid
                        { title := additionalTitle, questions := genQs } mkI mkQ
                    rw [hsave]
                    dsimp only
                    have hu2 : findSession db2 sid = some s := by
                      unfold findSession at hu ⊢
                      rw [hses2]
                      exact hu
                    rw [repoUpdateSessionStatus_of_some2 hu2 _]
                    exact Or.inl ⟨[dto].head?, rfl⟩

/-- `ValidateDraftMessages` either succeeds, or leaves the store untouched,
or — once past the early `VALIDATING` write — fails with only that status
write committed (no iteration or question written). -/
theorem validateDraft_outcome
    (db : DB) (sid : String)
    (llm : List String → List (String × String) →
      Except String (List GenQuestion))
    (mkI : Nat → String) (mkQ : Nat → Nat → String) :
    (∃ v, (ValidateDraftMessages db sid llm mkI mkQ).1 = Except.ok v) ∨
    (ValidateDraftMessages db sid llm mkI mkQ).2 = db ∨
    ((ValidateDraftMessages db sid llm mkI mkQ).2.iterations =
        db.iterations ∧
      (ValidateDraftMessages db sid llm mkI mkQ).2.questions = db.questions ∧
      sessionStatus (ValidateDraftMessages db sid llm mkI mkQ).2 sid =
        some SessionStatus.validating) := by
  unfold ValidateDraftMessages
  cases hok : getSessionByID db sid with
  | error e => exact Or.inr (Or.inl rfl)
  | ok s =>
      dsimp only
      by_cases hg : (s.status != SessionStatus.draftCollecting &&
          s.status != SessionStatus.waitingForAnswers &&
          s.status != SessionStatus.validating) = true
      · rw [if_pos hg]; exact Or.inr (Or.inl rfl)
      · rw [if_neg hg]
        by_cases hug : (s.userGoal.getD "" == "") = true
        · rw [if_pos hug]; exact Or.inr (Or.inl rfl)
        · rw [if_neg hug]
          by_cases hpc : (s.projectContext.getD "" == "") = true
          · rw [if_pos hpc]; exact Or.inr (Or.inl rfl)
          · rw [if_neg hpc]
            have hu := findSession_some_of_getOk hok
            by_cases hadd : hasAdditionalBlock db sid = true
            · rw [if_pos hadd]
              rw [repoUpdateSessionStatus_of_some2 hu _]
              exact Or.inl ⟨none, rfl⟩
            · rw [if_neg hadd]
              rw [repoUpdateSessionStatus_of_some2 hu SessionStatus.validating]
              dsimp only
              set db1 : DB := setStatusDB db sid SessionStatus.validating
                with hdb1
              have hval : sessionStatus db1 sid =
                  some SessionStatus.validating := by
                rw [hdb1]
                exact sessionStatus_setStatusDB hu _
              have hu1 : findSession db1 sid =
                  some { s with status := SessionStatus.validating } := by
                rw [hdb1]
                unfold setStatusDB
                rw [findSession_mapIf db sid
                  (fun t => { t with status := SessionStatus.validating })
                  (fun _ => rfl) sid]
                rw [hu]
                simp [findSession_eq_id hu]
              have htriple : db1.iterations = db.iterations ∧
                  db1.questions = db.questions ∧
                  sessionStatus db1 sid = some SessionStatus.validating :=
                ⟨rfl, rfl, hval⟩
              by_cases hm : (getSessionMessages db1 sid).isEmpty = true
              · rw [if_pos hm]; exact Or.inr (Or.inr htriple)
              · rw [if_neg hm]
                cases hpid : s.projectId with
                | none =>
                    dsimp only
                    cases hllm : llm ((getSessionMessages db1 sid).map
                        (fun m => m.messageText))
                        ((listQuestionsBySession db1 sid).filterMap
                          (fun q => q.answer.map (fun a => (q.question, a)))) with
                    | error e => exact Or.inr (Or.inr htriple)
                    | ok genQs =>
                        dsimp only
                        by_cases hemp : genQs.isEmpty = true
                        · rw [if_pos hemp]
                          rw [repoUpdateSessionStatus_of_some2 hu1 _]
                          exact Or.inl ⟨none, rfl⟩
                        · rw [if_neg hemp]
                          obtain ⟨dto, db2, hsave, _, hses2, _, _, _⟩ :=
                            saveQuestions_singleton db1 sid
                              { title := additionalTitle, questions := genQs }
                              mkI mkQ
                          rw [hsave]
                          dsimp only
                          have hu2 : findSession db2 sid =
                              some { s with
                                status := SessionStatus.validating } := by
                            unfold findSession at hu1 ⊢
                            rw [hses2]
                            exact hu1
                          rw [repoUpdateSessionStatus_of_some2 hu2 _]
                          exact Or.inl ⟨[dto].head?, rfl⟩
                | some pid =>
                    dsimp only
                    by_cases hpe : (pid != "") = true
                    · rw [if_pos hpe]
                      cases hproj : findProject db1 pid with
                      | none => exact Or.inr (Or.inr htriple)
                      | some p =>
                          dsimp only
                          cases hllm : llm ((getSessionMessages db1 sid).map
                              (fun m => m.messageText))
                              ((listQuestionsBySession db1 sid).filterMap
                                (fun q => q.answer.map
                                  (fun a => (q.question, a)))) with
                          | error e => exact Or.inr (Or.inr htriple)
                          | ok genQs =>
                              dsimp only
                              by_cases hemp : genQs.isEmpty = true
                              · rw [if_pos hemp]
                                rw [repoUpdateSessionStatus_of_some2 hu1 _]
                                exact Or.inl ⟨none, rfl⟩
                              · rw [if_neg hemp]
                                obtain ⟨dto, db2, hsave, _, hses2, _, _, _⟩ :=
                                  saveQuestions_singleton db1 sid
                                    { title := additionalTitle,
                                      questions := genQs } mkI mkQ
                                rw [hsave]
                                dsimp only
                                have hu2 : findSession db2 sid =
                                    some { s with
                                      status := SessionStatus.validating } := by
                                  unfold findSession at hu1 ⊢
                                  rw [hses2]
                                  exact hu1
                                rw [repoUpdateSessionStatus_of_some2 hu2 _]
                                exact Or.inl ⟨[dto].head?, rfl⟩
                    · rw [if_neg hpe]
                      dsimp only
                      cases hllm : llm ((getSessionMessages db1 sid).map
                          (fun m => m.messageText))
                          ((listQuestionsBySession db1 sid).filterMap
                            (fun q => q.answer.map (fun a => (q.question, a)))) with
                      | error e => exact Or.inr (Or.inr htriple)
                      | ok genQs =>
                          dsimp only
                          by_cases hemp : genQs.isEmpty = true
                          · rw [if_pos hemp]
                            rw [repoUpdateSessionStatus_of_some2 hu1 _]
                            exact Or.inl ⟨none, rfl⟩
                          · rw [if_neg hemp]
                            obtain ⟨dto, db2, hsave, _, hses2, _, _, _⟩ :=
                              saveQuestions_singleton db1 sid
                                { title := additionalTitle,
                                  questions := genQs } mkI mkQ
                            rw [hsave]
                            dsimp only
                            have hu2 : findSession db2 sid =
                                some { s with
                                  status := SessionStatus.validating } := by
                              unfold findSession at hu1 ⊢
                              rw [hses2]
                              exact hu1
                            rw [repoUpdateSessionStatus_of_some2 hu2 _]
                            exact Or.inl ⟨[dto].head?, rfl⟩

/-- C5 counterexample: with the draft session of `dbDraft` (status
`DRAFT_COLLECTING`), a Reasoning Gateway failure during
`ValidateDraftMessages` surfaces a wrapped error but leaves the session in
`VALIDATING` — the status was committed *before* the gateway call, so the
failure does not leave the status unchanged. -/
theorem draft_validation_commits_status_on_gateway_failure :
    sessionStatus dbDraft "s1" = some SessionStatus.draftCollecting ∧
    (ValidateDraftMessages dbDraft "s1" (fun _ _ => .error "timeout")
        mkIterIdW mkQIdW).1 = .error "validate draft: timeout" ∧
    sessionStatus (ValidateDraftMessages dbDraft "s1"
        (fun _ _ => .error "timeout") mkIterIdW mkQIdW).2 "s1" =
      some SessionStatus.validating :=
  ⟨rfl, rfl, rfl⟩

/-- C5 (amended): a failure during `ValidateAnswers` leaves the store
exactly as it was; a failure during `ValidateDraftMessages` leaves the
store unchanged *or* — when the failure happens after its early status
write — with only the `VALIDATING` status committed (no iteration and no
question written), rather than the status the session had when the
operation began. -/
theorem gateway_failure_abort_semantics :
    (∀ (db : DB) (sid : String)
        (llm : List (String × String) → Except String (List GenQuestion))
        (mkI : Nat → String) (mkQ : Nat → Nat → String) (e : String),
        (ValidateAnswers db sid llm mkI mkQ).1 = .error e →
        (ValidateAnswers db sid llm mkI mkQ).2 = db) ∧
    (∀ (db : DB) (sid : String)
        (llm : List String → List (String × String) →
          Except String (List GenQuestion))
        (mkI : Nat → String) (mkQ : Nat → Nat → String) (e : String),
        (ValidateDraftMessages db sid llm mkI mkQ).1 = .error e →
        (ValidateDraftMessages db sid llm mkI mkQ).2 = db ∨
        ((ValidateDraftMessages db sid llm mkI mkQ).2.iterations =
            db.iterations ∧
          (ValidateDraftMessages db sid llm mkI mkQ).2.questions =
            db.questions ∧
          sessionStatus (ValidateDraftMessages db sid llm mkI mkQ).2 sid =
            some SessionStatus.validating)) := by
  constructor
  · intro db sid llm mkI mkQ e herr
    rcases validateAnswers_outcome db sid llm mkI mkQ with ⟨v, hv⟩ | hdb
    · rw [hv] at herr
      exact absurd herr (by simp)
    · exact hdb
  · intro db sid llm mkI mkQ e herr
    rcases validateDraft_outcome db sid llm mkI mkQ with ⟨v, hv⟩ | hrest
    · rw [hv] at herr
      exact absurd herr (by simp)
    · exact hrest

/-- C5 witness: the gateway failure of the counterexample store falls into
the "only the `VALIDATING` status was committed" case. -/
theorem gateway_failure_abort_semantics_witness :
    (ValidateDraftMessages dbDraft "s1" (fun _ _ => .error "timeout")
        mkIterIdW mkQIdW).2 = dbDraft ∨
    ((ValidateDraftMessages dbDraft "s1" (fun _ _ => .error "timeout")
        mkIterIdW mkQIdW).2.iterations = dbDraft.iterations ∧
      (ValidateDraftMessages dbDraft "s1" (fun _ _ => .error "timeout")
        mkIterIdW mkQIdW).2.questions = dbDraft.questions ∧
      sessionStatus (ValidateDraftMessages dbDraft "s1"
        (fun _ _ => .error "timeout") mkIterIdW mkQIdW).2 "s1" =
        some SessionStatus.validating) :=
  gateway_failure_abort_semantics.2 dbDraft "s1"
    (fun _ _ => .error "timeout") mkIterIdW mkQIdW "validate draft: timeout"
    rfl

/-! ### C7 -/

theorem range_succ_shift (n : Nat) (f : Nat → Int) :
    (List.range (n + 1)).map f = f 0 :: (List.range n).map (fun i => f (i + 1)) := by
  rw [List.range_succ_eq_map, List.map_cons, List.map_map]
  simp [Function.comp, Nat.succ_eq_add_one]

theorem map_range_shift (n idx : Nat) (maxN : Int) :
    (List.range (n + 1)).map (fun i => maxN + ((idx + i : Nat) : Int) + 1) =
      (maxN + (idx : Int) + 1) ::
        (List.range n).map (fun i => maxN + ((idx + 1 + i : Nat) : Int) + 1) := by
  rw [range_succ_shift]
  have h : ∀ i : Nat, maxN + ((idx + (i + 1) : Nat) : Int) + 1 =
      maxN + ((idx + 1 + i : Nat) : Int) + 1 := by
    intro i
    push_cast
    ring
  simp only [h, Nat.add_zero]

theorem sessionIterNumbers_eq_iter {db db2 : DB}
    (h : db2.iterations = db.iterations) (sid : String) :
    sessionIterNumbers db2 sid = sessionIterNumbers db sid := by
  unfold sessionIterNumbers
  rw [h]

theorem sessionIterNumbers_snoc (db : DB) (sid : String) (it : Iteration)
    (h : it.sessionId = sid) :
    sessionIterNumbers { db with iterations := db.iterations ++ [it] } sid =
      sessionIterNumbers db sid ++ [it.iterationNumber] := by
  unfold sessionIterNumbers
  simp [List.filter_append, h]

/-- The questions created for one block are numbered `k+1, k+2, …` (so from 1
when the loop starts at 0) and all initialized `UNANSWERED`. -/
theorem createBlockQuestions_numbering (iid : String) (mk1 : Nat → String) :
    ∀ (gs : List GenQuestion) (db : DB) (k : Nat),
      (createBlockQuestions iid mk1 db gs k).1.map (fun q => q.questionNumber) =
        (List.range gs.length).map (fun i => ((k + i : Nat) : Int) + 1) ∧
      ∀ q ∈ (createBlockQuestions iid mk1 db gs k).1,
        q.status = QuestionStatus.unanswered := by
  intro gs
  induction gs with
  | nil =>
      intro db k
      exact ⟨by simp [createBlockQuestions], by simp [createBlockQuestions]⟩
  | cons g gs ih =>
      intro db k
      simp only [createBlockQuestions]
      constructor
      · rw [List.map_cons, List.length_cons, range_succ_shift,
          (ih _ (k + 1)).1]
        have h : ∀ i : Nat, ((k + (i + 1) : Nat) : Int) + 1 =
            ((k + 1 + i : Nat) : Int) + 1 := by
          intro i
          push_cast
          ring
        simp only [h, Nat.add_zero]
      · intro q hq
        rcases List.mem_cons.mp hq with h | h
        · rw [h]
        · exact (ih _ (k + 1)).2 q h

/-- Induction workhorse for C7: starting from any store whose iteration
numbers for the session are all below `maxN + idx + 1`, `saveBlocksAux`
succeeds, creates one iteration per block numbered
`maxN+idx+1, maxN+idx+2, …`, appends only `UNANSWERED` questions, and
returns one DTO per block with questions numbered from 1. -/
theorem saveBlocksAux_spec (sid : String) (mkI : Nat → String)
    (mkQ : Nat → Nat → String) (maxN : Int) :
    ∀ (blocks : List QuestionsBlock) (db : DB) (idx : Nat),
      (∀ n ∈ sessionIterNumbers db sid, n < maxN + (idx : Int) + 1) →
      ∃ dtos db2,
        saveBlocksAux sid mkI mkQ maxN db blocks idx = (.ok dtos, db2) ∧
        db2.sessions = db.sessions ∧
        db2.messages = db.messages ∧
        db2.projects = db.projects ∧
        sessionIterNumbers db2 sid =
          sessionIterNumbers db sid ++
            (List.range blocks.length).map
              (fun i => maxN + ((idx + i : Nat) : Int) + 1) ∧
        (∃ newQs, db2.questions = db.questions ++ newQs ∧
          ∀ q ∈ newQs, q.status = QuestionStatus.unanswered) ∧
        List.Forall₂ (fun (b : QuestionsBlock) (d : IterationWithQuestions) =>
          d.sessionId = sid ∧ d.title = b.title ∧
          d.questions.map (fun q => q.questionNumber) =
            (List.range b.questions.length).map (fun j : Nat => (j : Int) + 1) ∧
          ∀ q ∈ d.questions, q.status = QuestionStatus.unanswered)
          blocks dtos ∧
        dtos.map (fun d => d.iterationNumber) =
          (List.range blocks.length).map
            (fun i => maxN + ((idx + i : Nat) : Int) + 1) := by
  intro blocks
  induction blocks with
  | nil =>
      intro db idx H
      refine ⟨[], db, rfl, rfl, rfl, rfl, by simp, ⟨[], by simp, by simp⟩,
        List.Forall₂.nil, by simp⟩
  | cons b bs ih =>
      intro db idx H
      simp only [saveBlocksAux]
      rw [repoCreateIteration_no_conflict
        ({ id := mkI idx, sessionId := sid,
           iterationNumber := maxN + (idx : Int) + 1, title := b.title })
        rfl (fun n hn => H n hn)]
      dsimp only
      have hcomp := createBlockQuestions_comp (mkI idx) (mkQ idx) b.questions
        { db with iterations := db.iterations ++
            [{ id := mkI idx, sessionId := sid,
               iterationNumber := maxN + (idx : Int) + 1, title := b.title }] } 0
      have hnum1 : sessionIterNumbers
          (createBlockQuestions (mkI idx) (mkQ idx)
            { db with iterations := db.iterations ++
                [{ id := mkI idx, sessionId := sid,
                   iterationNumber := maxN + (idx : Int) + 1,
                   title := b.title }] } b.questions 0).2 sid =
          sessionIterNumbers db sid ++ [maxN + (idx : Int) + 1] := by
        rw [sessionIterNumbers_eq_iter hcomp.2.2.1]
        rw [sessionIterNumbers_snoc db sid _ rfl]
      have H2 : ∀ n ∈ sessionIterNumbers
          (createBlockQuestions (mkI idx) (mkQ idx)
            { db with iterations := db.iterations ++
                [{ id := mkI idx, sessionId := sid,
                   iterationNumber := maxN + (idx : Int) + 1,
                   title := b.title }] } b.questions 0).2 sid,
          n < maxN + ((idx + 1 : Nat) : Int) + 1 := by
        intro n hn
        rw [hnum1] at hn
        rcases List.mem_append.mp hn with h | h
        · have := H n h
          push_cast
          omega
        · have hn2 : n = maxN + (idx : Int) + 1 := by simpa using h
          push_cast
          omega
      obtain ⟨dtos2, db3, hrec, hses3, hmsg3, hproj3, hnum3, hq3ex, hfa2, hmap2⟩ :=
        ih (createBlockQuestions (mkI idx) (mkQ idx)
          { db with iterations := db.iterations ++
              [{ id := mkI idx, sessionId := sid,
                 iterationNumber := maxN + (idx : Int) + 1,
                 title := b.title }] } b.questions 0).2 (idx + 1) H2
      rw [hrec]
      dsimp only
      refine ⟨_, db3, rfl, ?_, ?_, ?_, ?_, ?_, ?_, ?_⟩
      · rw [hses3, hcomp.2.1]
      · rw [hmsg3, hcomp.2.2.2.1]
      · rw [hproj3, hcomp.2.2.2.2]
      · rw [hnum3, hnum1, List.append_assoc, List.singleton_append,
          List.length_cons, map_range_shift]
      · obtain ⟨newQs2, hq3, hst2⟩ := hq3ex
        refine ⟨(createBlockQuestions (mkI idx) (mkQ idx)
          { db with iterations := db.iterations ++
              [{ id := mkI idx, sessionId := sid,
                 iterationNumber := maxN + (idx : Int) + 1,
                 title := b.title }] } b.questions 0).1 ++ newQs2, ?_, ?_⟩
        · rw [hq3, hcomp.1, List.append_assoc]
        · intro q hq
          rcases List.mem_append.mp hq with h | h
          · exact (createBlockQuestions_numbering (mkI idx) (mkQ idx)
              b.questions _ 0).2 q h
          · exact hst2 q h
      · refine List.Forall₂.cons ⟨rfl, rfl, ?_, ?_⟩ hfa2
        · show ((createBlockQuestions (mkI idx) (mkQ idx)
              { db with iterations := db.iterations ++
                  [{ id := mkI idx, sessionId := sid,
                     iterationNumber := maxN + (idx : Int) + 1,
                     title := b.title }] } b.questions 0).1.map
            (fun q => ({ id := q.id, questionNumber := q.questionNumber,
                         question := q.question, explanation := q.explanation,
                         status := q.status } : QuestionDTO))).map
              (fun d => d.questionNumber) =
            (List.range b.questions.length).map (fun j : Nat => (j : Int) + 1)
          rw [List.map_map]
          refine Eq.trans ((createBlockQuestions_numbering (mkI idx) (mkQ idx)
            b.questions _ 0).1) ?_
          apply List.map_congr_left
          intro i _
          simp
        · intro q hq
          obtain ⟨q0, hq0, hq0eq⟩ := List.mem_map.mp hq
          rw [← hq0eq]
          exact (createBlockQuestions_numbering (mkI idx) (mkQ idx)
            b.questions _ 0).2 q0 hq0
      · rw [List.map_cons, hmap2, List.length_cons, map_range_shift]
        rfl

/-- C7: `saveGeneratedBlocks` (the engine's `saveQuestionsToDatabase`)
always succeeds, creates exactly one iteration per block with iteration
numbers `max(existing)+1, max(existing)+2, …`, returns one view per block
whose questions are numbered `1, 2, …` and all `UNANSWERED`, appends only
`UNANSWERED` question rows, and — because every new number is strictly
above every pre-existing number for the session — preserves distinctness of
the session's iteration numbers, so a second call cannot collide with the
first. -/
theorem saveGeneratedBlocks_numbering
    (db : DB) (sid : String) (blocks : List QuestionsBlock)
    (mkI : Nat → String) (mkQ : Nat → Nat → String)
    (hdist : List.Pairwise (· ≠ ·) (sessionIterNumbers db sid)) :
    ∃ dtos db2,
      saveQuestionsToDatabase db sid blocks mkI mkQ = (.ok dtos, db2) ∧
      sessionIterNumbers db2 sid =
        sessionIterNumbers db sid ++
          (List.range blocks.length).map
            (fun i : Nat => repoGetMaxIterationNumber db sid + (i : Int) + 1) ∧
      dtos.map (fun d => d.iterationNumber) =
        (List.range blocks.length).map
          (fun i : Nat => repoGetMaxIterationNumber db sid + (i : Int) + 1) ∧
      (∃ newQs, db2.questions = db.questions ++ newQs ∧
        ∀ q ∈ newQs, q.status = QuestionStatus.unanswered) ∧
      List.Forall₂ (fun (b : QuestionsBlock) (d : IterationWithQuestions) =>
        d.sessionId = sid ∧ d.title = b.title ∧
        d.questions.map (fun q => q.questionNumber) =
          (List.range b.questions.length).map (fun j : Nat => (j : Int) + 1) ∧
        ∀ q ∈ d.questions, q.status = QuestionStatus.unanswered)
        blocks dtos ∧
      List.Pairwise (· ≠ ·) (sessionIterNumbers db2 sid) := by
  have H0 : ∀ n ∈ sessionIterNumbers db sid,
      n < repoGetMaxIterationNumber db sid + ((0 : Nat) : Int) + 1 := by
    intro n hn
    have := sessionIterNumbers_lt_next db sid n hn
    push_cast
    omega
  obtain ⟨dtos, db2, hrun, _, _, _, hnum, hqex, hfa, hmap⟩ :=
    saveBlocksAux_spec sid mkI mkQ (repoGetMaxIterationNumber db sid)
      blocks db 0 H0
  have hclean : (List.range blocks.length).map
      (fun i : Nat => repoGetMaxIterationNumber db sid + ((0 + i : Nat) : Int) + 1) =
      (List.range blocks.length).map
        (fun i : Nat => repoGetMaxIterationNumber db sid + (i : Int) + 1) := by
    apply List.map_congr_left
    intro i _
    simp
  refine ⟨dtos, db2, ?_, ?_, ?_, hqex, hfa, ?_⟩
  · unfold saveQuestionsToDatabase
    exact hrun
  · rw [hnum, hclean]
  · rw [hmap, hclean]
  · rw [hnum]
    apply List.pairwise_append.mpr
    refine ⟨hdist, ?_, ?_⟩
    · rw [List.pairwise_map]
      refine (List.pairwise_lt_range blocks.length).imp ?_
      intro a c hac heq
      have : ((0 + a : Nat) : Int) = ((0 + c : Nat) : Int) := by omega
      push_cast at this
      omega
    · intro a ha c hc
      obtain ⟨i, _, hieq⟩ := List.mem_map.mp hc
      have hlt := sessionIterNumbers_lt_next db sid a ha
      rw [← hieq]
      intro heq
      push_cast at heq
      omega

/-- C7 witness: one generated block on the one-open-question store creates
iteration number 2 (= max 1 + 1) with its single question numbered 1 and
`UNANSWERED`, keeping the session's iteration numbers distinct. -/
theorem saveGeneratedBlocks_numbering_witness :
    ∃ dtos db2,
      saveQuestionsToDatabase dbOneOpen "s1"
        [{ title := "T", questions := [{ text := "q", explanation := "e" }] }]
        mkIterIdW mkQIdW = (.ok dtos, db2) ∧
      sessionIterNumbers db2 "s1" =
        sessionIterNumbers dbOneOpen "s1" ++
          (List.range (1 : Nat)).map
            (fun i : Nat => repoGetMaxIterationNumber dbOneOpen "s1" + (i : Int) + 1) ∧
      dtos.map (fun d => d.iterationNumber) =
        (List.range (1 : Nat)).map
          (fun i : Nat => repoGetMaxIterationNumber dbOneOpen "s1" + (i : Int) + 1) ∧
      (∃ newQs, db2.questions = dbOneOpen.questions ++ newQs ∧
        ∀ q ∈ newQs, q.status = QuestionStatus.unanswered) ∧
      List.Forall₂ (fun (b : QuestionsBlock) (d : IterationWithQuestions) =>
        d.sessionId = "s1" ∧ d.title = b.title ∧
        d.questions.map (fun q => q.questionNumber) =
          (List.range b.questions.length).map (fun j : Nat => (j : Int) + 1) ∧
        ∀ q ∈ d.questions, q.status = QuestionStatus.unanswered)
        [{ title := "T", questions := [{ text := "q", explanation := "e" }] }]
        dtos ∧
      List.Pairwise (· ≠ ·) (sessionIterNumbers db2 "s1") :=
  saveGeneratedBlocks_numbering dbOneOpen "s1"
    [{ title := "T", questions := [{ text := "q", explanation := "e" }] }]
    mkIterIdW mkQIdW (by decide)

end AgentApi
